import Mathlib

/-!
Verification development for the payment-gateway orchestrator.

The definitions below are a shallow embedding of the Python sources under
`src/payment_gateway/`:

* `core/enums.py`, `core/models.py` — enumerations and data records;
* `monitoring/circuit_breaker.py` — the per-provider circuit breaker;
* `providers/base.py` and the four concrete providers — capabilities,
  network preference scores, the adjusted success rate, and the
  deterministic skeleton of `process_payment`;
* `gateway/payment_gateway.py` — provider selection, the retry loop,
  `process_payment`, `retry_payment`, `configure_provider`,
  `simulate_scenario`.

Modelling conventions:

* Python floats are modelled as exact rationals (`ℚ`); every float literal
  in the source is an exact decimal, so nothing is lost.
* Wall-clock time is modelled as a `Nat` count of seconds supplied by the
  environment; `datetime.now()` at gateway construction is second `0`.
* The randomness of a provider call (`random.random()`, `random.choice`,
  latency jitter) and the clock are externalized into an `AttemptEnv`
  record supplied per attempt, so the orchestrator is a deterministic
  function of the environment trace.
* `timestamp` fields, the monitor's metric counters, and the per-network /
  per-method / per-region statistics tables are omitted: no claim reads
  them, and they do not feed back into control flow (only the aggregate
  request/failure counters do, and those are modelled).
* Python dict iteration order is insertion order; dicts are modelled as
  association lists preserving that order.
* The gateway is constructed with its default `RoutingStrategy.HEALTH_BASED`;
  `_select_optimal_provider` dispatches to `_select_healthiest_provider`
  in that configuration, and that is the configuration modelled here.
-/

namespace PaymentGateway

/-- Payment transaction status (`core/enums.py`, `PaymentStatus`). -/
inductive PaymentStatus where
  | PENDING
  | SUCCESS
  | FAILED
  | TIMEOUT
  | RETRYING
  | CANCELLED
  | REFUNDED
deriving DecidableEq, Repr

/-- Circuit breaker state (`core/enums.py`, `CircuitBreakerState`). -/
inductive CircuitBreakerState where
  | CLOSED
  | OPEN
  | HALF_OPEN
deriving DecidableEq, Repr

/-- Card network (`core/enums.py`, `CardNetwork`). -/
inductive CardNetwork where
  | VISA
  | MASTERCARD
  | AMEX
  | DISCOVER
  | JCB
  | DINERS
  | UNIONPAY
deriving DecidableEq, Repr

/-- Payment method (`core/enums.py`, `PaymentMethod`). -/
inductive PaymentMethod where
  | CARD
  | DIGITAL_WALLET
  | BANK_TRANSFER
  | CRYPTOCURRENCY
  | BUY_NOW_PAY_LATER
deriving DecidableEq, Repr

/-- Supported currency (`core/enums.py`, `Currency`) — exactly nine codes. -/
inductive Currency where
  | USD
  | EUR
  | GBP
  | SGD
  | MYR
  | THB
  | IDR
  | VND
  | PHP
deriving DecidableEq, Repr

/-- Transaction type (`core/enums.py`, `TransactionType`). -/
inductive TransactionType where
  | PAYMENT
  | REFUND
  | AUTHORIZATION
  | CAPTURE
  | VOID
deriving DecidableEq, Repr

/-- Risk level (`core/enums.py`, `RiskLevel`). -/
inductive RiskLevel where
  | LOW
  | MEDIUM
  | HIGH
  | CRITICAL
deriving DecidableEq, Repr

/-- Geographic region (`core/enums.py`, `Region`). -/
inductive Region where
  | NORTH_AMERICA
  | EUROPE
  | ASIA_PACIFIC
  | SOUTHEAST_ASIA
  | LATIN_AMERICA
  | MIDDLE_EAST
  | AFRICA
deriving DecidableEq, Repr

/-- Payment instrument (`core/models.py`, `PaymentInstrument`).  String
detail fields that no modelled code path reads are omitted. -/
structure PaymentInstrument where
  method : PaymentMethod
  network : Option CardNetwork
deriving DecidableEq, Repr

/-- Customer information (`core/models.py`, `CustomerInfo`). -/
structure CustomerInfo where
  customer_id : String
  country : Option String
  region : Option Region
  risk_level : RiskLevel
  previous_failures : Nat
  successful_payments : Nat
deriving DecidableEq, Repr

/-- One routing attempt (`core/models.py`, `Route`).  `status` is the
literal string the source stores: "success", "failed" or "error". -/
structure Route where
  provider : String
  attempt_number : Nat
  status : String
  reason : Option String
  processing_time : Option ℚ
deriving DecidableEq, Repr

/-- A transaction (`core/models.py`, `Transaction`).  `timestamp` and
`fraud_indicators` are omitted (never read by modelled code);
`metadata` keeps only string-valued entries, which is all the modelled
paths ever store. -/
structure Transaction where
  id : String
  amount : ℚ
  currency : Currency
  transaction_type : TransactionType
  provider : String
  status : PaymentStatus
  payment_instrument : Option PaymentInstrument
  customer_info : Option CustomerInfo
  merchant_id : Option String
  order_id : Option String
  attempts : Nat
  route_history : List Route
  metadata : List (String × String)
  risk_score : Option ℚ
deriving DecidableEq, Repr

/-- Static provider capabilities (`core/models.py`, `ProviderCapability`). -/
structure ProviderCapability where
  supported_networks : List CardNetwork
  supported_methods : List PaymentMethod
  supported_currencies : List Currency
  supported_regions : List Region
  min_amount : ℚ
  max_amount : ℚ
  processing_fee : ℚ
deriving DecidableEq, Repr

/-- Retry configuration (`core/models.py`, `RetryConfig`), with the source
defaults. -/
structure RetryConfig where
  max_attempts : Nat
  backoff_multiplier : ℚ
  initial_delay : ℚ
  max_delay : ℚ
  retry_on_errors : List String
deriving DecidableEq, Repr

/-- The dataclass defaults of `RetryConfig`. -/
def RetryConfig.default : RetryConfig where
  max_attempts := 3
  backoff_multiplier := 2
  initial_delay := 1
  max_delay := 60
  retry_on_errors := ["TIMEOUT", "CONNECTION_REFUSED", "NETWORK_TIMEOUT", "PROVIDER_MAINTENANCE"]

/-- `RetryConfig.get_delay`: `min(initial_delay * backoff ** (attempt - 1), max_delay)`. -/
def RetryConfig.get_delay (cfg : RetryConfig) (attempt : Nat) : ℚ :=
  min (cfg.initial_delay * cfg.backoff_multiplier ^ (attempt - 1)) cfg.max_delay

/-- Circuit breaker configuration (`core/models.py`, `CircuitBreakerConfig`).
`min_throughput` is declared in the source but never read by
`circuit_breaker.py`; it is kept here for fidelity. -/
structure CircuitBreakerConfig where
  failure_threshold : Nat
  timeout_seconds : Nat
  half_open_max_calls : Nat
  min_throughput : Nat
deriving DecidableEq, Repr

/-- The dataclass defaults of `CircuitBreakerConfig`. -/
def CircuitBreakerConfig.default : CircuitBreakerConfig where
  failure_threshold := 5
  timeout_seconds := 30
  half_open_max_calls := 3
  min_throughput := 10

/-- Circuit breaker instance state (`monitoring/circuit_breaker.py`,
`CircuitBreaker.__init__`).  `last_failure_time` is a second count. -/
structure CircuitBreaker where
  config : CircuitBreakerConfig
  failure_count : Nat
  success_count : Nat
  last_failure_time : Option Nat
  state : CircuitBreakerState
  half_open_calls : Nat
deriving DecidableEq, Repr

/-- A freshly constructed breaker. -/
def CircuitBreaker.init (config : CircuitBreakerConfig) : CircuitBreaker where
  config := config
  failure_count := 0
  success_count := 0
  last_failure_time := none
  state := .CLOSED
  half_open_calls := 0

/-- `CircuitBreaker._should_attempt_reset`: true when there is no recorded
failure, or the configured timeout has elapsed since it. -/
def CircuitBreaker.should_attempt_reset (cb : CircuitBreaker) (now : Nat) : Bool :=
  match cb.last_failure_time with
  | none => true
  | some t0 => decide (t0 + cb.config.timeout_seconds ≤ now)

/-- `CircuitBreaker._on_success`. -/
def CircuitBreaker.on_success (cb : CircuitBreaker) : CircuitBreaker :=
  let cb := { cb with success_count := cb.success_count + 1 }
  match cb.state with
  | .HALF_OPEN =>
    let cb := { cb with half_open_calls := cb.half_open_calls + 1 }
    if cb.config.half_open_max_calls ≤ cb.half_open_calls then
      { cb with state := .CLOSED, failure_count := 0, success_count := 0 }
    else cb
  | .CLOSED =>
    { cb with failure_count := cb.failure_count - 1 }
  | .OPEN => cb

/-- `CircuitBreaker._on_failure`: increments `failure_count`, stamps
`last_failure_time`, and transitions the state. -/
def CircuitBreaker.on_failure (cb : CircuitBreaker) (now : Nat) : CircuitBreaker :=
  let cb := { cb with failure_count := cb.failure_count + 1, last_failure_time := some now }
  match cb.state with
  | .HALF_OPEN => { cb with state := .OPEN }
  | .CLOSED =>
    if cb.config.failure_threshold ≤ cb.failure_count then
      { cb with state := .OPEN }
    else cb
  | .OPEN => cb

/-- `CircuitBreaker.force_open`. -/
def CircuitBreaker.force_open (cb : CircuitBreaker) (now : Nat) : CircuitBreaker :=
  { cb with state := .OPEN, last_failure_time := some now }

/-- `CircuitBreaker.force_close`: resets every counter. -/
def CircuitBreaker.force_close (cb : CircuitBreaker) : CircuitBreaker :=
  { cb with state := .CLOSED, failure_count := 0, success_count := 0,
            half_open_calls := 0, last_failure_time := none }

/-- Provider runtime state plus static data (`providers/base.py`,
`PaymentProvider.__init__`, together with the concrete subclass data).
`network_preference_score` is the subclass method, carried as a field. -/
structure Provider where
  name : String
  success_rate : ℚ
  avg_latency : ℚ
  request_count : Nat
  failure_count : Nat
  total_processing_time : ℚ
  is_maintenance : Bool
  rate_limit_threshold : Nat
  rate_limit_window : Nat
  rate_limit_counter : Nat
  rate_limit_reset_time : Nat
  capabilities : ProviderCapability
  network_preference_score : CardNetwork → ℚ

/-- Provider health snapshot (`core/models.py`, `ProviderHealth`), keeping
the fields the routing code reads. -/
structure ProviderHealth where
  success_rate : ℚ
  avg_latency : ℚ
  is_healthy : Bool
deriving DecidableEq, Repr

/-- `PaymentProvider.get_health`: derived success rate and latency, and
`is_healthy = success_rate > 0.5 and not maintenance`. -/
def Provider.get_health (p : Provider) : ProviderHealth :=
  let rate : ℚ := if p.request_count = 0 then 1
    else ((p.request_count : ℚ) - (p.failure_count : ℚ)) / (p.request_count : ℚ)
  let lat : ℚ := if p.request_count = 0 then 0
    else p.total_processing_time / (p.request_count : ℚ) * 1000
  { success_rate := rate
    avg_latency := lat
    is_healthy := decide ((1 : ℚ)/2 < rate) && !p.is_maintenance }

/-- `PaymentProvider.can_process_transaction`: currency, amount bounds,
method, card network, and customer region checks, in source order. -/
def Provider.can_process_transaction (p : Provider) (t : Transaction) : Bool :=
  if t.currency ∉ p.capabilities.supported_currencies then false
  else if ¬ (p.capabilities.min_amount ≤ t.amount ∧ t.amount ≤ p.capabilities.max_amount) then false
  else
    let instrument_ok : Bool :=
      match t.payment_instrument with
      | some pi =>
        if pi.method ∉ p.capabilities.supported_methods then false
        else
          match pi.network with
          | some n =>
            if pi.method = .CARD ∧ n ∉ p.capabilities.supported_networks then false
            else true
          | none => true
      | none => true
    if instrument_ok = false then false
    else
      match t.customer_info with
      | some ci =>
        match ci.region with
        | some r => decide (r ∈ p.capabilities.supported_regions)
        | none => true
      | none => true

/-- `PaymentProvider._get_adjusted_success_rate`, transcribed exactly: the
`elif amount > 5000` branch is dead code in the source (any amount above
5000 already satisfies `amount > 1000`), and the risk adjustment is gated
on `transaction.customer_info and transaction.risk_score` being truthy
(`risk_score` equal to `0.0` or `None` is falsy). -/
def Provider.get_adjusted_success_rate (p : Provider) (t : Transaction) : ℚ :=
  let base := p.success_rate
  let base :=
    match t.payment_instrument with
    | some pi =>
      match pi.network with
      | some n => base * p.network_preference_score n
      | none => base
    | none => base
  let base :=
    if 1000 < t.amount then base * (95/100)
    else if 5000 < t.amount then base * (90/100)
    else base
  let base :=
    match t.customer_info, t.risk_score with
    | some _, some r =>
      if r ≠ 0 then
        if 7/10 < r then base * (85/100)
        else if 1/2 < r then base * (95/100)
        else base
      else base
    | _, _ => base
  min base 1

/-- `PaymentProvider._is_rate_limited` with the clock passed in: reset the
fixed window when it has elapsed, then compare the counter against the
threshold, incrementing it when below. -/
def Provider.is_rate_limited (p : Provider) (now : Nat) : Provider × Bool :=
  let p :=
    if p.rate_limit_reset_time < now then
      { p with rate_limit_counter := 0, rate_limit_reset_time := now + p.rate_limit_window }
    else p
  if p.rate_limit_threshold ≤ p.rate_limit_counter then (p, true)
  else ({ p with rate_limit_counter := p.rate_limit_counter + 1 }, false)

/-- Environment of one provider call: the clock, the `random.random()` draw
deciding success, the measured processing time, and the error code that
`random.choice` would pick on failure.  Everything non-deterministic in
`PaymentProvider.process_payment` is captured here. -/
structure AttemptEnv where
  now : Nat
  draw : ℚ
  processing_time : ℚ
  error_pick : String
deriving DecidableEq, Repr

/-- The deterministic skeleton of `PaymentProvider.process_payment`:
increment `request_count`; fail with `UNSUPPORTED_TRANSACTION` when the
capability check fails; then the rate-limit check; then maintenance; then
draw success against the adjusted success rate.  Failure messages are the
`str()` of the raised `ProviderError`. -/
def Provider.process_payment (p : Provider) (t : Transaction) (env : AttemptEnv) :
    Provider × Except String ℚ :=
  let p := { p with request_count := p.request_count + 1 }
  if p.can_process_transaction t = false then
    (p, .error ("Provider " ++ p.name ++ ": Transaction not supported by provider capabilities"))
  else
    match p.is_rate_limited env.now with
    | (p, true) => (p, .error ("Provider " ++ p.name ++ ": Rate limit exceeded"))
    | (p, false) =>
      if p.is_maintenance then
        (p, .error ("Provider " ++ p.name ++ ": Provider is under maintenance"))
      else
        let adjusted := p.get_adjusted_success_rate t
        let p := { p with total_processing_time := p.total_processing_time + env.processing_time }
        if env.draw < adjusted then
          (p, .ok env.processing_time)
        else
          ({ p with failure_count := p.failure_count + 1 },
           .error ("Provider " ++ p.name ++ ": Payment failed: " ++ env.error_pick))

/-- Stripe's declared capabilities (`providers/stripe_provider.py`). -/
def stripe_capabilities : ProviderCapability where
  supported_networks := [.VISA, .MASTERCARD, .AMEX, .DISCOVER, .JCB]
  supported_methods := [.CARD, .DIGITAL_WALLET, .BANK_TRANSFER]
  supported_currencies := [.USD, .EUR, .GBP, .SGD, .MYR]
  supported_regions := [.NORTH_AMERICA, .EUROPE, .ASIA_PACIFIC, .SOUTHEAST_ASIA]
  min_amount := 1/2
  max_amount := 99999999/100
  processing_fee := 29/10

/-- Stripe's network preference table (`StripeProvider.get_network_preference_score`).
Every `CardNetwork` constructor is a key of the source dictionary, so the
`.get` default of `0.5` is unreachable. -/
def stripe_network_preference_score : CardNetwork → ℚ
  | .VISA => 1
  | .MASTERCARD => 98/100
  | .AMEX => 85/100
  | .DISCOVER => 95/100
  | .JCB => 80/100
  | .DINERS => 70/100
  | .UNIONPAY => 60/100

/-- Adyen's declared capabilities (`providers/adyen_provider.py`). -/
def adyen_capabilities : ProviderCapability where
  supported_networks := [.VISA, .MASTERCARD, .AMEX, .DISCOVER, .JCB, .DINERS, .UNIONPAY]
  supported_methods := [.CARD, .DIGITAL_WALLET, .BANK_TRANSFER, .BUY_NOW_PAY_LATER]
  supported_currencies := [.USD, .EUR, .GBP, .SGD, .MYR, .THB, .IDR, .VND, .PHP]
  supported_regions := [.NORTH_AMERICA, .EUROPE, .ASIA_PACIFIC, .SOUTHEAST_ASIA,
                        .LATIN_AMERICA, .MIDDLE_EAST]
  min_amount := 1/100
  max_amount := 1000000
  processing_fee := 5/2

/-- Adyen's network preference table (all seven networks are keys; the
`.get` default of `0.7` is unreachable). -/
def adyen_network_preference_score : CardNetwork → ℚ
  | .VISA => 1
  | .MASTERCARD => 1
  | .AMEX => 95/100
  | .DISCOVER => 90/100
  | .JCB => 95/100
  | .DINERS => 85/100
  | .UNIONPAY => 90/100

/-- PayPal's declared capabilities (`providers/paypal_provider.py`). -/
def paypal_capabilities : ProviderCapability where
  supported_networks := [.VISA, .MASTERCARD, .AMEX, .DISCOVER]
  supported_methods := [.DIGITAL_WALLET, .CARD, .BANK_TRANSFER, .BUY_NOW_PAY_LATER]
  supported_currencies := [.USD, .EUR, .GBP, .SGD, .MYR, .THB]
  supported_regions := [.NORTH_AMERICA, .EUROPE, .ASIA_PACIFIC, .SOUTHEAST_ASIA,
                        .LATIN_AMERICA]
  min_amount := 1
  max_amount := 60000
  processing_fee := 349/100

/-- PayPal's network preference table (all seven networks are keys; the
`.get` default of `0.4` is unreachable). -/
def paypal_network_preference_score : CardNetwork → ℚ
  | .VISA => 95/100
  | .MASTERCARD => 95/100
  | .AMEX => 90/100
  | .DISCOVER => 85/100
  | .JCB => 70/100
  | .DINERS => 60/100
  | .UNIONPAY => 50/100

/-- Razorpay's declared capabilities (`providers/razorpay_provider.py`). -/
def razorpay_capabilities : ProviderCapability where
  supported_networks := [.VISA, .MASTERCARD, .AMEX, .JCB, .UNIONPAY]
  supported_methods := [.CARD, .DIGITAL_WALLET, .BANK_TRANSFER, .BUY_NOW_PAY_LATER]
  supported_currencies := [.SGD, .MYR, .THB, .IDR, .VND, .PHP, .USD, .EUR]
  supported_regions := [.SOUTHEAST_ASIA, .ASIA_PACIFIC, .NORTH_AMERICA, .EUROPE]
  min_amount := 1/10
  max_amount := 500000
  processing_fee := 2

/-- Razorpay's network preference table (all seven networks are keys; the
`.get` default of `0.5` is unreachable). -/
def razorpay_network_preference_score : CardNetwork → ℚ
  | .VISA => 98/100
  | .MASTERCARD => 96/100
  | .UNIONPAY => 92/100
  | .JCB => 90/100
  | .AMEX => 75/100
  | .DISCOVER => 70/100
  | .DINERS => 65/100

/-- A freshly constructed provider with the shared `__init__` defaults. -/
def Provider.init (name : String) (success_rate : ℚ) (avg_latency : ℚ)
    (capabilities : ProviderCapability) (score : CardNetwork → ℚ) : Provider where
  name := name
  success_rate := success_rate
  avg_latency := avg_latency
  request_count := 0
  failure_count := 0
  total_processing_time := 0
  is_maintenance := false
  rate_limit_threshold := 100
  rate_limit_window := 60
  rate_limit_counter := 0
  rate_limit_reset_time := 0
  capabilities := capabilities
  network_preference_score := score

/-- `StripeProvider()`: baseline success rate 0.85, latency 200 ms. -/
def StripeProvider : Provider :=
  Provider.init ("stripe") (85/100) 200 stripe_capabilities stripe_network_preference_score

/-- `AdyenProvider()`: baseline success rate 0.90, latency 150 ms. -/
def AdyenProvider : Provider :=
  Provider.init ("adyen") (90/100) 150 adyen_capabilities adyen_network_preference_score

/-- `PayPalProvider()`: baseline success rate 0.80, latency 300 ms. -/
def PayPalProvider : Provider :=
  Provider.init ("paypal") (80/100) 300 paypal_capabilities paypal_network_preference_score

/-- `RazorpayProvider()`: baseline success rate 0.88, latency 180 ms. -/
def RazorpayProvider : Provider :=
  Provider.init ("razorpay") (88/100) 180 razorpay_capabilities razorpay_network_preference_score

/-- Python dict key lookup on an insertion-ordered association list. -/
def lookup_assoc {α : Type} : List (String × α) → String → Option α
  | [], _ => none
  | e :: rest, k => if e.1 = k then some e.2 else lookup_assoc rest k

/-- Python dict assignment on an insertion-ordered association list:
update in place when the key exists, append otherwise. -/
def update_assoc {α : Type} (l : List (String × α)) (k : String) (v : α) :
    List (String × α) :=
  if (lookup_assoc l k).isSome then
    l.map (fun e => if e.1 = k then (k, v) else e)
  else l ++ [(k, v)]

/-- Errors that propagate out of the gateway facade to the caller. -/
inductive GatewayError where
  | invalidProvider (provider : String)
  | transactionNotFound (transaction_id : String)
  | attributeMissingConfigure
deriving DecidableEq, Repr

/-- A provider configuration keyword argument, as passed to
`configure_provider(name, **config)`. -/
inductive ConfigOption where
  | success_rate (r : ℚ)
  | avg_latency (l : ℚ)
  | is_maintenance (b : Bool)
  | rate_limit_threshold (n : Nat)
deriving DecidableEq, Repr

/-- The response envelope of `process_payment` / `retry_payment`.  The
source returns a dict; the `transaction` key is absent from the
already-successful `retry_payment` envelope, hence the `Option`. -/
structure PaymentResult where
  success : Bool
  transaction : Option Transaction
  error : Option String
deriving DecidableEq, Repr

/-- The full gateway state (`PaymentGateway.__init__`): the provider
registry and breaker map in insertion order, the transactions map, the
retry configuration, and the events emitted through the monitor
(recorded as `(event_type, provider)` pairs). -/
structure PaymentGatewayState where
  providers : List (String × Provider)
  circuit_breakers : List (String × CircuitBreaker)
  transactions : List (String × Transaction)
  retry_config : RetryConfig
  events : List (String × String)

/-- The gateway as constructed by `PaymentGateway.__init__` with its
default `HEALTH_BASED` routing strategy. -/
def init_gateway : PaymentGatewayState where
  providers := [("stripe", StripeProvider), ("adyen", AdyenProvider),
                ("paypal", PayPalProvider), ("razorpay", RazorpayProvider)]
  circuit_breakers := [("stripe", CircuitBreaker.init CircuitBreakerConfig.default),
                       ("adyen", CircuitBreaker.init CircuitBreakerConfig.default),
                       ("paypal", CircuitBreaker.init CircuitBreakerConfig.default),
                       ("razorpay", CircuitBreaker.init CircuitBreakerConfig.default)]
  transactions := []
  retry_config := RetryConfig.default
  events := []

/-- The state of the breaker registered under `name`.  The source indexes
`self.circuit_breakers[name]` directly; the gateway constructs a breaker
for every provider key, so the lookup always succeeds in reachable
states (a missing key would be a `KeyError` in Python). -/
def breaker_state (bs : List (String × CircuitBreaker)) (name : String) :
    CircuitBreakerState :=
  match lookup_assoc bs name with
  | some cb => cb.state
  | none => .CLOSED

/-- The `if transaction and ... not provider.can_process_transaction(transaction)`
skip test of the selection loops. -/
def capability_skip (t? : Option Transaction) (p : Provider) : Bool :=
  match t? with
  | some t => !p.can_process_transaction t
  | none => false

/-- The candidate scan of `_select_healthiest_provider`: skip providers
that cannot process the transaction, consider healthy ones whose breaker
is not OPEN, score them by `success_rate * (1000 / max(avg_latency, 1))`,
and keep the strictly best. -/
def select_healthiest_go (bs : List (String × CircuitBreaker)) (t? : Option Transaction) :
    List (String × Provider) → Option String → ℚ → String
  | [], best, _ => best.getD ("stripe")
  | e :: rest, best, best_score =>
    if capability_skip t? e.2 = true then
      select_healthiest_go bs t? rest best best_score
    else
      let health := e.2.get_health
      if health.is_healthy = true ∧ breaker_state bs e.1 ≠ .OPEN then
        let score := health.success_rate * (1000 / max health.avg_latency 1)
        if best_score < score then select_healthiest_go bs t? rest (some e.1) score
        else select_healthiest_go bs t? rest best best_score
      else select_healthiest_go bs t? rest best best_score

/-- `_select_healthiest_provider`: the scan starting from
`best_provider = None`, `best_score = -1`, with the literal
`return best_provider or 'stripe'` fallback. -/
def select_healthiest_provider (providers : List (String × Provider))
    (bs : List (String × CircuitBreaker)) (t? : Option Transaction) : String :=
  select_healthiest_go bs t? providers none (-1)

/-- `_select_failover`: first provider of the static preference order that
is registered, compatible, healthy and breaker-closed; ultimate fallback
`'stripe'`. -/
def select_failover (providers : List (String × Provider))
    (bs : List (String × CircuitBreaker)) (t? : Option Transaction) : String :=
  let eligible := fun (name : String) =>
    match lookup_assoc providers name with
    | none => false
    | some p =>
      let compat : Bool :=
        match t? with
        | some t => p.can_process_transaction t
        | none => true
      compat && p.get_health.is_healthy && decide (breaker_state bs name ≠ .OPEN)
  match (["stripe", "adyen", "paypal", "razorpay"].filter eligible) with
  | [] => "stripe"
  | name :: _ => name

/-- The temporary transaction copy `_switch_provider` builds for provider
selection: it copies id, amount, currency, type, status, instrument and
customer info, and leaves every other field at its dataclass default
(in particular `risk_score = None` and an empty route history). -/
def temp_transaction (t : Transaction) : Transaction where
  id := t.id
  amount := t.amount
  currency := t.currency
  transaction_type := t.transaction_type
  provider := "temp"
  status := t.status
  payment_instrument := t.payment_instrument
  customer_info := t.customer_info
  merchant_id := none
  order_id := none
  attempts := 0
  route_history := []
  metadata := []
  risk_score := none

/-- `_switch_provider`: restrict the registry to the providers other than
the current one and re-run optimal selection (the gateway's default
strategy dispatches to `_select_healthiest_provider`) on the temporary
copy.  Note the fallback inside the selector is still the literal
`'stripe'`, not restricted to the reduced registry. -/
def switch_provider (providers : List (String × Provider))
    (bs : List (String × CircuitBreaker)) (t : Transaction) : Transaction :=
  let available := providers.filter (fun e => e.1 ≠ t.provider)
  if available.isEmpty then t
  else { t with provider := select_healthiest_provider available bs (some (temp_transaction t)) }

/-- Result alternatives of one `circuit_breaker.call(provider.process_payment, tx)`:
the updated breaker, the updated provider, and either the processing time
of a success or the `str()` of the raised exception. -/
def circuit_call (cb : CircuitBreaker) (p : Provider) (t : Transaction) (env : AttemptEnv) :
    CircuitBreaker × Provider × Except String ℚ :=
  if cb.state = .OPEN ∧ cb.should_attempt_reset env.now = false then
    -- The source raises `CircuitBreakerError("Circuit breaker is OPEN")`;
    -- that constructor treats its argument as the provider name, so the
    -- rendered message reads oddly.  Transcribed as rendered.
    (cb, p, .error ("Circuit breaker is OPEN for provider Circuit breaker is OPEN"))
  else
    let cb := if cb.state = .OPEN then { cb with state := .HALF_OPEN, half_open_calls := 0 } else cb
    if cb.state = .HALF_OPEN ∧ cb.config.half_open_max_calls ≤ cb.half_open_calls then
      (cb, p, .error ("Circuit breaker is OPEN for provider Circuit breaker HALF_OPEN call limit exceeded"))
    else
      match p.process_payment t env with
      | (p, .ok pt) => (cb.on_success, p, .ok pt)
      | (p, .error m) => (cb.on_failure env.now, p, .error m)

/-- The mutable state the attempt loop threads besides the transaction. -/
structure OrchestratorState where
  providers : List (String × Provider)
  circuit_breakers : List (String × CircuitBreaker)
  events : List (String × String)

/-- The body of `_attempt_payment`'s `for attempt in range(max_attempts)`
loop, structural in the remaining iteration count (`fuel`).  `attempt` is
the current zero-based loop index, so `fuel = 0` is loop exit: the source
then sets the status to FAILED and emits `payment_final_failure`.  Within
an iteration: set `attempts = attempt + 1`, call the provider through its
breaker, append the Route, emit the event, and on failure switch provider
exactly when another iteration follows (`attempt < max_attempts - 1`,
i.e. `0 < fuel` here).  A missing registry or breaker key would be a
`KeyError`, caught by the generic `except Exception` branch that records
an `"error"` route (and emits no event). -/
def attempt_payment_go (oracle : Nat → AttemptEnv) :
    Nat → Nat → OrchestratorState → Transaction → OrchestratorState × Transaction
  | 0, _, os, t =>
    ({ os with events := os.events ++ [("payment_final_failure", t.provider)] },
     { t with status := .FAILED })
  | fuel + 1, attempt, os, t =>
    let t := { t with attempts := attempt + 1 }
    match lookup_assoc os.providers t.provider, lookup_assoc os.circuit_breakers t.provider with
    | some p, some cb =>
      let env := oracle attempt
      match circuit_call cb p t env with
      | (cb', p', .ok pt) =>
        let route : Route :=
          { provider := t.provider, attempt_number := attempt + 1,
            status := "success", reason := none, processing_time := some pt }
        let t := { t with route_history := t.route_history ++ [route], status := .SUCCESS }
        ({ os with
            providers := update_assoc os.providers t.provider p',
            circuit_breakers := update_assoc os.circuit_breakers t.provider cb',
            events := os.events ++ [("payment_success", t.provider)] },
         t)
      | (cb', p', .error msg) =>
        let route : Route :=
          { provider := t.provider, attempt_number := attempt + 1,
            status := "failed", reason := some msg, processing_time := none }
        let t := { t with route_history := t.route_history ++ [route] }
        let os := { os with
            providers := update_assoc os.providers t.provider p',
            circuit_breakers := update_assoc os.circuit_breakers t.provider cb',
            events := os.events ++ [("payment_failure", t.provider)] }
        if 0 < fuel then
          attempt_payment_go oracle fuel (attempt + 1) os
            (switch_provider os.providers os.circuit_breakers t)
        else
          attempt_payment_go oracle fuel (attempt + 1) os t
    | _, _ =>
      -- Python renders the missing key in quotes inside the message;
      -- the quotes are left out here.
      let route : Route :=
        { provider := t.provider, attempt_number := attempt + 1,
          status := "error", reason := some ("Unexpected error: " ++ t.provider),
          processing_time := none }
      let t := { t with route_history := t.route_history ++ [route] }
      if 0 < fuel then
        attempt_payment_go oracle fuel (attempt + 1) os
          (switch_provider os.providers os.circuit_breakers t)
      else
        attempt_payment_go oracle fuel (attempt + 1) os t

/-- `_attempt_payment`: run the loop, store the final transaction object
back under its id (the source mutates it in place inside the map), and
build the response envelope. -/
def attempt_payment (gw : PaymentGatewayState) (oracle : Nat → AttemptEnv)
    (t : Transaction) : PaymentResult × PaymentGatewayState :=
  let os : OrchestratorState :=
    { providers := gw.providers, circuit_breakers := gw.circuit_breakers, events := gw.events }
  let r := attempt_payment_go oracle gw.retry_config.max_attempts 0 os t
  let gw := { gw with
      providers := r.1.providers,
      circuit_breakers := r.1.circuit_breakers,
      events := r.1.events,
      transactions := update_assoc gw.transactions r.2.id r.2 }
  if r.2.status = .SUCCESS then
    ({ success := true, transaction := some r.2, error := none }, gw)
  else
    ({ success := false, transaction := some r.2,
       error := some ("Payment failed after all retry attempts") }, gw)

/-- ASCII uppercasing of a character, as `str.upper` acts on the ASCII
letters the currency codes use. -/
def asciiUpper (c : Char) : Char :=
  if ('a') ≤ c ∧ c ≤ ('z') then Char.ofNat (c.toNat - 32) else c

/-- `currency.upper()` on ASCII strings. -/
def str_upper (s : String) : String := ⟨s.data.map asciiUpper⟩

/-- The `Currency(value)` enum lookup: the nine codes, else `ValueError`
(`none`). -/
def currency_from_str (s : String) : Option Currency :=
  if s = "USD" then some .USD
  else if s = "EUR" then some .EUR
  else if s = "GBP" then some .GBP
  else if s = "SGD" then some .SGD
  else if s = "MYR" then some .MYR
  else if s = "THB" then some .THB
  else if s = "IDR" then some .IDR
  else if s = "VND" then some .VND
  else if s = "PHP" then some .PHP
  else none

/-- The currency handling at the top of `process_payment`:
`Currency(currency.upper())`, with the `ValueError` handler silently
substituting `Currency.USD`. -/
def parse_currency (s : String) : Currency :=
  match currency_from_str (str_upper s) with
  | some c => c
  | none => .USD

/-- Python truthiness of an optional string (`None` and `""` are falsy). -/
def truthy_str : Option String → Bool
  | some s => s ≠ ""
  | none => false

/-- `process_payment` (`gateway/payment_gateway.py`).  `txid` stands for
the generated `uuid4`.  The preferred-provider validation happens before
the transaction is stored and before `payment_initiated` is emitted; an
unknown preferred provider therefore raises `InvalidProviderError` with
the gateway state untouched.  Note `if preferred_provider:` is a Python
truthiness test, so an empty string falls through to optimal selection. -/
def process_payment (gw : PaymentGatewayState) (oracle : Nat → AttemptEnv)
    (txid : String) (amount : ℚ) (currency : String)
    (preferred_provider : Option String) (customer_id : Option String)
    (payment_instrument : Option PaymentInstrument) (customer_info : Option CustomerInfo)
    (transaction_type : Option TransactionType)
    (merchant_id : Option String) (order_id : Option String) :
    (Except GatewayError PaymentResult) × PaymentGatewayState :=
  let currency_enum := parse_currency currency
  let ttype := transaction_type.getD .PAYMENT
  let customer_info :=
    if customer_info.isNone ∧ truthy_str customer_id = true then
      some { customer_id := customer_id.getD "", country := none, region := none,
             risk_level := .LOW, previous_failures := 0, successful_payments := 0 }
    else customer_info
  let t : Transaction :=
    { id := txid, amount := amount, currency := currency_enum, transaction_type := ttype,
      provider := "temp", status := .PENDING, payment_instrument := payment_instrument,
      customer_info := customer_info, merchant_id := merchant_id, order_id := order_id,
      attempts := 0, route_history := [], metadata := [], risk_score := none }
  -- `if customer_id and not customer_info:` — tested after customer_info
  -- may have been created above, so this branch is dead code in the source.
  let t :=
    if truthy_str customer_id = true ∧ customer_info.isNone then
      { t with metadata := t.metadata ++ [("customer_id", customer_id.getD "")] }
    else t
  let proceed : String → (Except GatewayError PaymentResult) × PaymentGatewayState :=
    fun provider_name =>
      let t := { t with provider := provider_name }
      let gw := { gw with
          transactions := update_assoc gw.transactions txid t,
          events := gw.events ++ [("payment_initiated", provider_name)] }
      let r := attempt_payment gw oracle t
      (.ok r.1, r.2)
  match preferred_provider with
  | some pp =>
    if pp = "" then
      proceed (select_healthiest_provider gw.providers gw.circuit_breakers (some t))
    else if (lookup_assoc gw.providers pp).isNone then
      (.error (.invalidProvider pp), gw)
    else proceed pp
  | none =>
    proceed (select_healthiest_provider gw.providers gw.circuit_breakers (some t))

/-- `retry_payment`: not-found and already-successful guards, then reset
the status to RETRYING, re-select a provider with
`_select_optimal_provider()` — called without the transaction and over
the full registry, so neither the capability filter nor an exclusion of
the last-used provider applies — and re-enter the attempt loop. -/
def retry_payment (gw : PaymentGatewayState) (oracle : Nat → AttemptEnv)
    (transaction_id : String) :
    (Except GatewayError PaymentResult) × PaymentGatewayState :=
  match lookup_assoc gw.transactions transaction_id with
  | none => (.error (.transactionNotFound transaction_id), gw)
  | some t =>
    if t.status = .SUCCESS then
      (.ok { success := false, transaction := none,
             error := some ("Transaction already successful") }, gw)
    else
      let t := { t with
          status := .RETRYING,
          provider := select_healthiest_provider gw.providers gw.circuit_breakers none }
      let r := attempt_payment gw oracle t
      (.ok r.1, r.2)

/-- `configure_provider`: unknown names raise `InvalidProviderError`; for a
registered name the source then evaluates
`self.providers[provider_name].configure(**config)`, but neither
`PaymentProvider` nor any concrete provider class defines a `configure`
method, so Python raises `AttributeError` and no option is ever applied. -/
def configure_provider (gw : PaymentGatewayState) (provider_name : String)
    (_config : List ConfigOption) : Except GatewayError PaymentGatewayState :=
  if (lookup_assoc gw.providers provider_name).isNone then
    .error (.invalidProvider provider_name)
  else
    .error .attributeMissingConfigure

/-- The keyword arguments `_reset_all_providers` passes for every provider:
the hardcoded `success_rate=0.9`, `avg_latency=200`,
`is_maintenance=False`, `rate_limit_threshold=100`. -/
def reset_options : List ConfigOption :=
  [.success_rate (9/10), .avg_latency 200, .is_maintenance false, .rate_limit_threshold 100]

/-- `_reset_all_providers`: configure every provider with `reset_options`,
then force-close every breaker.  The first `configure_provider` call
raises (see `configure_provider`), so in the source the breaker loop is
never reached. -/
def reset_all_providers (gw : PaymentGatewayState) :
    Except GatewayError PaymentGatewayState := do
  let gw ← gw.providers.foldlM (fun g e => configure_provider g e.1 reset_options) gw
  pure { gw with circuit_breakers := gw.circuit_breakers.map (fun e => (e.1, e.2.force_close)) }

/-- `simulate_scenario`, returning the (possibly updated) gateway state and
the `success` flag of the response envelope; the message strings of the
envelope are abstracted away.  Any exception from a scenario thunk is
caught and reported as `success = False`. -/
def simulate_scenario (gw : PaymentGatewayState) (now : Nat) (scenario_name : String) :
    PaymentGatewayState × Bool :=
  let run : Except GatewayError PaymentGatewayState → PaymentGatewayState × Bool :=
    fun r => match r with
      | .ok g => (g, true)
      | .error _ => (gw, false)
  if scenario_name = "stripe_maintenance" then
    run (configure_provider gw ("stripe") [.is_maintenance true])
  else if scenario_name = "adyen_high_latency" then
    run (configure_provider gw ("adyen") [.avg_latency 2000])
  else if scenario_name = "paypal_low_success" then
    run (configure_provider gw ("paypal") [.success_rate (3/10)])
  else if scenario_name = "razorpay_rate_limit" then
    run (configure_provider gw ("razorpay") [.rate_limit_threshold 1])
  else if scenario_name = "mass_failure" then
    run (gw.providers.foldlM (fun g e => configure_provider g e.1 [.success_rate (1/10)]) gw)
  else if scenario_name = "circuit_breaker_test" then
    run (pure { gw with circuit_breakers :=
      gw.circuit_breakers.map (fun e => if e.1 = "stripe" then (e.1, e.2.force_open now) else e) })
  else if scenario_name = "reset_all" then
    run (reset_all_providers gw)
  else (gw, false)

/-- Failure count of the breaker registered under `name` (0 if absent). -/
def breaker_failure_count (bs : List (String × CircuitBreaker)) (name : String) : Nat :=
  match lookup_assoc bs name with
  | some cb => cb.failure_count
  | none => 0

/-- Spec-side definition, following the words of the specification's router
fallback clause (§4.4): when no provider is eligible, return the provider
with the lowest breaker `failure_count` among those that can process the
transaction, with ties broken by lexicographic provider name; if that set
is empty, the first provider in registry order.  Written for comparison
against `select_healthiest_provider`. -/
def router_fallback_spec (providers : List (String × Provider))
    (bs : List (String × CircuitBreaker)) (t : Transaction) : String :=
  let candidates := providers.filter (fun e => e.2.can_process_transaction t = true)
  match candidates with
  | [] =>
    match providers with
    | [] => ""
    | e :: _ => e.1
  | c :: cs =>
    (cs.foldl (fun best e =>
      if breaker_failure_count bs e.1 < breaker_failure_count bs best.1 ∨
         (breaker_failure_count bs e.1 = breaker_failure_count bs best.1 ∧ e.1 < best.1)
      then e else best) c).1

/-- Spec-side definition, following the words of the specification's
adjusted-success-probability formula (§4.1): base rate times network
preference score times amount penalty times risk penalty, clamped to
`[0, 1]`; the amount penalty is 1 up to 1000, 0.95 up to 5000 and 0.90
above; the risk penalty is 1 up to risk 0.5, 0.95 up to 0.7 and 0.85
above, with an absent risk score treated as 0.  Written for comparison
against `Provider.get_adjusted_success_rate`. -/
def adjusted_success_rate_spec (p : Provider) (t : Transaction) : ℚ :=
  let network_score : ℚ :=
    match t.payment_instrument with
    | some pi =>
      match pi.network with
      | some n => p.network_preference_score n
      | none => 1
    | none => 1
  let amount_penalty : ℚ :=
    if t.amount ≤ 1000 then 1 else if t.amount ≤ 5000 then 95/100 else 90/100
  let risk : ℚ := t.risk_score.getD 0
  let risk_penalty : ℚ :=
    if risk ≤ 1/2 then 1 else if risk ≤ 7/10 then 95/100 else 85/100
  min (max (p.success_rate * network_score * amount_penalty * risk_penalty) 0) 1

/-- The network factor actually applied by the source: the preference score
when the instrument carries a network, else 1. -/
def network_factor (p : Provider) (t : Transaction) : ℚ :=
  match t.payment_instrument with
  | some pi =>
    match pi.network with
    | some n => p.network_preference_score n
    | none => 1
  | none => 1

/-- The amount penalty actually applied by the source: 0.95 for every
amount above 1000 (the 0.90 branch of the source is dead code), else 1. -/
def amount_penalty_effective (t : Transaction) : ℚ :=
  if 1000 < t.amount then 95/100 else 1

/-- The risk penalty actually applied by the source: only when
`customer_info` is present and `risk_score` is a truthy float. -/
def risk_penalty_effective (t : Transaction) : ℚ :=
  match t.customer_info, t.risk_score with
  | some _, some r =>
    if r ≠ 0 then
      if 7/10 < r then 85/100
      else if 1/2 < r then 95/100
      else 1
    else 1
  | _, _ => 1

/-- Eligibility of a registry entry in the health-based scan: passes the
capability filter, is healthy, and its breaker is not OPEN. -/
def eligible_entry (bs : List (String × CircuitBreaker)) (t? : Option Transaction)
    (e : String × Provider) : Prop :=
  capability_skip t? e.2 = false ∧ (e.2.get_health).is_healthy = true ∧
    breaker_state bs e.1 ≠ .OPEN

/-- A plain $100 USD card-less payment, as `process_payment` would build it
for a fresh gateway with provider already selected. -/
def tx0 : Transaction where
  id := "tx-1"
  amount := 100
  currency := .USD
  transaction_type := .PAYMENT
  provider := "stripe"
  status := .PENDING
  payment_instrument := none
  customer_info := none
  merchant_id := none
  order_id := none
  attempts := 0
  route_history := []
  metadata := []
  risk_score := none

/-- An environment in which the provider draw always fails and the
contextual error choice is INSUFFICIENT_FUNDS. -/
def env_insufficient : AttemptEnv where
  now := 0
  draw := 1
  processing_time := 0
  error_pick := "INSUFFICIENT_FUNDS"

/-- Every attempt fails with INSUFFICIENT_FUNDS. -/
def oracle_insufficient : Nat → AttemptEnv := fun _ => env_insufficient

/-- An environment in which the provider draw always succeeds. -/
def env_ok : AttemptEnv where
  now := 0
  draw := 0
  processing_time := 1/10
  error_pick := "TIMEOUT"

/-- Every attempt succeeds. -/
def oracle_ok : Nat → AttemptEnv := fun _ => env_ok

/-- The run behind claims C1 and C2: a fresh gateway processes `tx0`
through the attempt loop while every provider call fails with the
terminal error INSUFFICIENT_FUNDS. -/
def run_fail : PaymentResult × PaymentGatewayState :=
  attempt_payment init_gateway oracle_insufficient tx0

/-- Re-entering the orchestrator on the failed transaction of `run_fail`,
with the first retried attempt succeeding. -/
def run_retry : (Except GatewayError PaymentResult) × PaymentGatewayState :=
  retry_payment run_fail.2 oracle_ok ("tx-1")

/-- A breaker that has tripped OPEN (as after reaching the failure
threshold under traffic, or `force_open`). -/
def open_breaker : CircuitBreaker :=
  { CircuitBreaker.init CircuitBreakerConfig.default with
      state := .OPEN, last_failure_time := some 0 }

/-- A gateway in which every provider except Stripe has an OPEN breaker,
so no alternative to Stripe is eligible. -/
def gw_c3 : PaymentGatewayState :=
  { init_gateway with circuit_breakers :=
      [("stripe", CircuitBreaker.init CircuitBreakerConfig.default),
       ("adyen", open_breaker),
       ("paypal", open_breaker),
       ("razorpay", open_breaker)] }

/-- The run behind claim C3: with every alternative breaker OPEN, the
failing transaction is retried on Stripe again and again. -/
def run_c3 : PaymentResult × PaymentGatewayState :=
  attempt_payment gw_c3 oracle_insufficient tx0

/-- The invariant of the `run_c3` trace: every registered provider other
than Stripe has an OPEN breaker. -/
def others_open (os : OrchestratorState) : Prop :=
  ∀ e ∈ os.providers, e.1 ≠ "stripe" → breaker_state os.circuit_breakers e.1 = .OPEN

/-- A gateway in which every breaker is OPEN (so no provider is eligible)
and the breakers carry distinct failure counts: stripe 5, adyen 0,
paypal 7, razorpay 9. -/
def gw_all_open : PaymentGatewayState :=
  { init_gateway with
      circuit_breakers :=
        [("stripe", { open_breaker with failure_count := 5 }),
         ("adyen", open_breaker),
         ("paypal", { open_breaker with failure_count := 7 }),
         ("razorpay", { open_breaker with failure_count := 9 })] }

/-- The transaction of claim C5's counterexample: amount 6000, a risk
score of 0.9, and no customer info. -/
def tx_c5 : Transaction :=
  { tx0 with amount := 6000, risk_score := some (9/10) }

/-- Stripe's provider state after one failed call at second 0. -/
def stripe_after_fail : Provider :=
  { StripeProvider with request_count := 1, failure_count := 1, rate_limit_counter := 1 }

/-- A fresh default breaker after one failure at second 0. -/
def cb_after_fail : CircuitBreaker :=
  { CircuitBreaker.init CircuitBreakerConfig.default with
      failure_count := 1, last_failure_time := some 0 }

/-- The nine currency code strings of the `Currency` enum. -/
def currency_codes : List String :=
  ["USD", "EUR", "GBP", "SGD", "MYR", "THB", "IDR", "VND", "PHP"]

/-- The run behind claim C9: a payment submitted with the lowercase
currency string "eur". -/
def run_eur : (Except GatewayError PaymentResult) × PaymentGatewayState :=
  process_payment init_gateway oracle_ok ("tx-9") 100 ("eur")
    none none none none none none none

/-- The run behind claim C10's counterexample: a payment whose preferred
provider is the empty string, which is not a registered provider name. -/
def run_empty_preferred : (Except GatewayError PaymentResult) × PaymentGatewayState :=
  process_payment init_gateway oracle_ok ("tx-10") 100 ("USD")
    (some "") none none none none none none

/-- The transaction carried by a gateway-level result, if any. -/
def result_transaction (r : (Except GatewayError PaymentResult) × PaymentGatewayState) :
    Option Transaction :=
  match r.1 with
  | .ok pr => pr.transaction
  | .error _ => none

/-- The fresh gateway with its retry allowlist replaced: the loop never
reads `retry_on_errors`, so runs on this gateway coincide with runs on
`init_gateway` for every `ros`. -/
def gw_with_retry_on (ros : List String) : PaymentGatewayState :=
  { init_gateway with
      retry_config := { init_gateway.retry_config with retry_on_errors := ros } }

/-- The final transaction object of the all-fail run behind `run_fail`. -/
def t_fail : Transaction :=
  (attempt_payment_go oracle_insufficient init_gateway.retry_config.max_attempts 0
    { providers := init_gateway.providers, circuit_breakers := init_gateway.circuit_breakers,
      events := init_gateway.events } tx0).2

/-- The transaction `retry_payment` re-enters the loop with: the stored
failed transaction, status reset to RETRYING and a freshly selected
provider (chosen without the capability filter). -/
def t_retry_entry : Transaction :=
  { t_fail with
      status := .RETRYING,
      provider := select_healthiest_provider run_fail.2.providers
        run_fail.2.circuit_breakers none }

/-- A DINERS card instrument: only Adyen supports this network. -/
def pi_diners : PaymentInstrument where
  method := .CARD
  network := some .DINERS

/-- A DINERS card payment: `can_process_transaction` holds only for Adyen. -/
def tx_c7 : Transaction :=
  { tx0 with payment_instrument := some pi_diners }

/-- A transaction whose current provider is Adyen (for provider switching). -/
def tx_adyen : Transaction :=
  { tx0 with provider := "adyen" }

theorem switch_provider_shape (ps : List (String × Provider))
    (bs : List (String × CircuitBreaker)) (t : Transaction) :
    ∃ pn, switch_provider ps bs t = { t with provider := pn } := by
  simp only [switch_provider]
  split
  · exact ⟨t.provider, rfl⟩
  · exact ⟨_, rfl⟩

theorem adjusted_success_rate_le_one (p : Provider) (t : Transaction) :
    p.get_adjusted_success_rate t ≤ 1 := by
  unfold Provider.get_adjusted_success_rate
  exact min_le_right _ _

theorem provider_process_fails (p : Provider) (t : Transaction) (env : AttemptEnv)
    (h : 1 ≤ env.draw) :
    ∃ p' msg, p.process_payment t env = (p', .error msg) := by
  simp only [Provider.process_payment]
  split
  · exact ⟨_, _, rfl⟩
  · split
    · exact ⟨_, _, rfl⟩
    · split
      · exact ⟨_, _, rfl⟩
      · split
        · rename_i hdrawlt
          exact absurd (lt_of_lt_of_le hdrawlt (adjusted_success_rate_le_one _ t))
            (not_lt.mpr h)
        · exact ⟨_, _, rfl⟩

theorem circuit_call_fails (cb : CircuitBreaker) (p : Provider) (t : Transaction)
    (env : AttemptEnv) (h : 1 ≤ env.draw) :
    ∃ cb' p' msg, circuit_call cb p t env = (cb', p', .error msg) := by
  simp only [circuit_call]
  split
  · exact ⟨_, _, _, rfl⟩
  · obtain ⟨p', msg, hpm⟩ := provider_process_fails p t env h
    split
    · split
      · exact ⟨_, _, _, rfl⟩
      · rw [hpm]
        exact ⟨_, _, _, rfl⟩
    · split
      · exact ⟨_, _, _, rfl⟩
      · rw [hpm]
        exact ⟨_, _, _, rfl⟩

theorem attempt_payment_go_spec (oracle : Nat → AttemptEnv) :
    ∀ (fuel attempt : Nat) (os : OrchestratorState) (t : Transaction),
    ∃ r : List Route,
      ((attempt_payment_go oracle fuel attempt os t).2.route_history = t.route_history ++ r) ∧
      ((attempt_payment_go oracle fuel attempt os t).2.attempts
          = if fuel = 0 then t.attempts else attempt + r.length) ∧
      (fuel = 0 → r = []) ∧
      (0 < fuel → 0 < r.length) ∧
      (∀ i (hi : i < r.length), (r.get ⟨i, hi⟩).attempt_number = attempt + i + 1) ∧
      ((attempt_payment_go oracle fuel attempt os t).2.id = t.id) ∧
      ((attempt_payment_go oracle fuel attempt os t).2.currency = t.currency) := by
  intro fuel
  induction fuel with
  | zero =>
    intro attempt os t
    refine ⟨[], ?_⟩
    simp [attempt_payment_go]
  | succ fuel ih =>
    intro attempt os t
    -- Shared continuation: every non-success branch appends one route and
    -- either switches provider (when another iteration follows) or not.
    have hb : ∀ (os' : OrchestratorState) (route : Route),
        route.attempt_number = attempt + 1 →
        ∃ r : List Route,
          ((if 0 < fuel then
              attempt_payment_go oracle fuel (attempt + 1) os'
                (switch_provider os'.providers os'.circuit_breakers
                  { t with attempts := attempt + 1,
                           route_history := t.route_history ++ [route] })
            else
              attempt_payment_go oracle fuel (attempt + 1) os'
                { t with attempts := attempt + 1,
                         route_history := t.route_history ++ [route] }).2.route_history
              = t.route_history ++ r) ∧
          ((if 0 < fuel then
              attempt_payment_go oracle fuel (attempt + 1) os'
                (switch_provider os'.providers os'.circuit_breakers
                  { t with attempts := attempt + 1,
                           route_history := t.route_history ++ [route] })
            else
              attempt_payment_go oracle fuel (attempt + 1) os'
                { t with attempts := attempt + 1,
                         route_history := t.route_history ++ [route] }).2.attempts
              = if fuel + 1 = 0 then t.attempts else attempt + r.length) ∧
          (fuel + 1 = 0 → r = []) ∧
          (0 < fuel + 1 → 0 < r.length) ∧
          (∀ i (hi : i < r.length), (r.get ⟨i, hi⟩).attempt_number = attempt + i + 1) ∧
          ((if 0 < fuel then
              attempt_payment_go oracle fuel (attempt + 1) os'
                (switch_provider os'.providers os'.circuit_breakers
                  { t with attempts := attempt + 1,
                           route_history := t.route_history ++ [route] })
            else
              attempt_payment_go oracle fuel (attempt + 1) os'
                { t with attempts := attempt + 1,
                         route_history := t.route_history ++ [route] }).2.id = t.id) ∧
          ((if 0 < fuel then
              attempt_payment_go oracle fuel (attempt + 1) os'
                (switch_provider os'.providers os'.circuit_breakers
                  { t with attempts := attempt + 1,
                           route_history := t.route_history ++ [route] })
            else
              attempt_payment_go oracle fuel (attempt + 1) os'
                { t with attempts := attempt + 1,
                         route_history := t.route_history ++ [route] }).2.currency
              = t.currency) := by
      intro os' route hnum
      by_cases hf : 0 < fuel
      · rw [if_pos hf]
        obtain ⟨pn, hpn⟩ := switch_provider_shape os'.providers os'.circuit_breakers
          { t with attempts := attempt + 1, route_history := t.route_history ++ [route] }
        rw [hpn]
        obtain ⟨r', h1, h2, h3, _, h5, h6, h7⟩ := ih (attempt + 1) os'
          { ({ t with
                attempts := attempt + 1,
                route_history := t.route_history ++ [route] } : Transaction) with
            provider := pn }
        have hfz : ¬ fuel = 0 := Nat.pos_iff_ne_zero.mp hf
        refine ⟨route :: r', ?_, ?_, ?_, ?_, ?_, ?_, ?_⟩
        · rw [h1]
          simp
        · rw [h2]
          simp only [hfz, if_false, Nat.succ_ne_zero, List.length_cons]
          omega
        · intro habs
          exact absurd habs (Nat.succ_ne_zero fuel)
        · intro _
          simp
        · intro i hi
          cases i with
          | zero => simpa using hnum
          | succ i =>
            have hi' : i < r'.length := by simpa using hi
            have := h5 i hi'
            simp only [List.get_cons_succ]
            rw [this]
            omega
        · rw [h6]
        · rw [h7]
      · rw [if_neg hf]
        have hf0 : fuel = 0 := by omega
        subst hf0
        refine ⟨[route], ?_, ?_, ?_, ?_, ?_, ?_, ?_⟩
        · simp [attempt_payment_go]
        · simp [attempt_payment_go]
        · intro habs
          exact absurd habs (Nat.succ_ne_zero 0)
        · intro _
          simp
        · intro i hi
          have hi0 : i = 0 := by simpa using hi
          subst hi0
          simpa using hnum
        · simp [attempt_payment_go]
        · simp [attempt_payment_go]
    rcases hp : lookup_assoc os.providers t.provider with _ | p
    · simp only [attempt_payment_go, hp]
      exact hb _ _ rfl
    · rcases hcb : lookup_assoc os.circuit_breakers t.provider with _ | cb
      · simp only [attempt_payment_go, hp, hcb]
        exact hb _ _ rfl
      · rcases hcc : circuit_call cb p { t with attempts := attempt + 1 } (oracle attempt)
          with ⟨cb', p', res⟩
        cases res with
        | ok pt =>
          simp only [attempt_payment_go, hp, hcb, hcc]
          refine ⟨[{ provider := t.provider, attempt_number := attempt + 1,
                     status := "success", reason := none, processing_time := some pt }],
            ?_, ?_, ?_, ?_, ?_, ?_, ?_⟩
          · simp
          · simp
          · intro habs
            exact absurd habs (Nat.succ_ne_zero fuel)
          · intro _
            simp
          · intro i hi
            have hi0 : i = 0 := by simpa using hi
            subst hi0
            simp
          · simp
          · simp
        | error msg =>
          simp only [attempt_payment_go, hp, hcb, hcc]
          exact hb _ _ rfl
theorem attempt_payment_go_all_fail (oracle : Nat → AttemptEnv)
    (hdraw : ∀ n, 1 ≤ (oracle n).draw) :
    ∀ (fuel attempt : Nat) (os : OrchestratorState) (t : Transaction),
      ((attempt_payment_go oracle fuel attempt os t).2.status = .FAILED) ∧
      ((attempt_payment_go oracle fuel attempt os t).2.attempts
          = if fuel = 0 then t.attempts else attempt + fuel) ∧
      ((attempt_payment_go oracle fuel attempt os t).2.route_history.length
          = t.route_history.length + fuel) := by
  intro fuel
  induction fuel with
  | zero =>
    intro attempt os t
    simp [attempt_payment_go]
  | succ fuel ih =>
    intro attempt os t
    have hb : ∀ (os' : OrchestratorState) (route : Route),
        ((if 0 < fuel then
            attempt_payment_go oracle fuel (attempt + 1) os'
              (switch_provider os'.providers os'.circuit_breakers
                { t with attempts := attempt + 1,
                         route_history := t.route_history ++ [route] })
          else
            attempt_payment_go oracle fuel (attempt + 1) os'
              { t with attempts := attempt + 1,
                       route_history := t.route_history ++ [route] }).2.status = .FAILED) ∧
        ((if 0 < fuel then
            attempt_payment_go oracle fuel (attempt + 1) os'
              (switch_provider os'.providers os'.circuit_breakers
                { t with attempts := attempt + 1,
                         route_history := t.route_history ++ [route] })
          else
            attempt_payment_go oracle fuel (attempt + 1) os'
              { t with attempts := attempt + 1,
                       route_history := t.route_history ++ [route] }).2.attempts
            = if fuel + 1 = 0 then t.attempts else attempt + (fuel + 1)) ∧
        ((if 0 < fuel then
            attempt_payment_go oracle fuel (attempt + 1) os'
              (switch_provider os'.providers os'.circuit_breakers
                { t with attempts := attempt + 1,
                         route_history := t.route_history ++ [route] })
          else
            attempt_payment_go oracle fuel (attempt + 1) os'
              { t with attempts := attempt + 1,
                       route_history := t.route_history ++ [route] }).2.route_history.length
            = t.route_history.length + (fuel + 1)) := by
      intro os' route
      by_cases hf : 0 < fuel
      · rw [if_pos hf]
        obtain ⟨pn, hpn⟩ := switch_provider_shape os'.providers os'.circuit_breakers
          { t with attempts := attempt + 1, route_history := t.route_history ++ [route] }
        rw [hpn]
        obtain ⟨h1, h2, h3⟩ := ih (attempt + 1) os'
          { ({ t with
                attempts := attempt + 1,
                route_history := t.route_history ++ [route] } : Transaction) with
            provider := pn }
        have hfz : ¬ fuel = 0 := Nat.pos_iff_ne_zero.mp hf
        refine ⟨h1, ?_, ?_⟩
        · rw [h2]
          simp only [hfz, if_false, Nat.succ_ne_zero]
          omega
        · rw [h3]
          simp
          omega
      · rw [if_neg hf]
        have hf0 : fuel = 0 := by omega
        subst hf0
        refine ⟨?_, ?_, ?_⟩ <;> simp [attempt_payment_go]
    rcases hp : lookup_assoc os.providers t.provider with _ | p
    · simp only [attempt_payment_go, hp]
      exact hb _ _
    · rcases hcb : lookup_assoc os.circuit_breakers t.provider with _ | cb
      · simp only [attempt_payment_go, hp, hcb]
        exact hb _ _
      · rcases hcc : circuit_call cb p { t with attempts := attempt + 1 } (oracle attempt)
          with ⟨cb', p', res⟩
        cases res with
        | ok pt =>
          obtain ⟨cb2, p2, msg, hmsg⟩ :=
            circuit_call_fails cb p { t with attempts := attempt + 1 } (oracle attempt)
              (hdraw attempt)
          rw [hcc] at hmsg
          simp at hmsg
        | error msg =>
          simp only [attempt_payment_go, hp, hcb, hcc]
          exact hb _ _

theorem attempt_payment_go_head_error (oracle : Nat → AttemptEnv) (fuel attempt : Nat)
    (os : OrchestratorState) (t : Transaction) (p : Provider) (cb : CircuitBreaker)
    (cb' : CircuitBreaker) (p' : Provider) (msg : String)
    (hp : lookup_assoc os.providers t.provider = some p)
    (hcb : lookup_assoc os.circuit_breakers t.provider = some cb)
    (hcc : circuit_call cb p { t with attempts := attempt + 1 } (oracle attempt)
        = (cb', p', .error msg)) :
    ∃ rest : List Route,
      (attempt_payment_go oracle (fuel + 1) attempt os t).2.route_history
        = t.route_history ++
          ({ provider := t.provider, attempt_number := attempt + 1, status := "failed",
             reason := some msg, processing_time := none } : Route) :: rest := by
  simp only [attempt_payment_go, hp, hcb, hcc]
  by_cases hf : 0 < fuel
  · rw [if_pos hf]
    obtain ⟨pn, hpn⟩ := switch_provider_shape _ _
      { t with attempts := attempt + 1,
               route_history := t.route_history ++
                 [{ provider := t.provider, attempt_number := attempt + 1,
                    status := "failed", reason := some msg, processing_time := none }] }
    rw [hpn]
    obtain ⟨r', h1, _⟩ := attempt_payment_go_spec oracle fuel (attempt + 1) _
      { ({ t with
            attempts := attempt + 1,
            route_history := t.route_history ++
              [{ provider := t.provider, attempt_number := attempt + 1,
                 status := "failed", reason := some msg, processing_time := none }] } :
          Transaction) with
        provider := pn }
    refine ⟨r', ?_⟩
    rw [h1]
    simp
  · rw [if_neg hf]
    have hf0 : fuel = 0 := by omega
    subst hf0
    exact ⟨[], by simp [attempt_payment_go]⟩

theorem attempt_payment_go_head_ok (oracle : Nat → AttemptEnv) (fuel attempt : Nat)
    (os : OrchestratorState) (t : Transaction) (p : Provider) (cb : CircuitBreaker)
    (cb' : CircuitBreaker) (p' : Provider) (pt : ℚ)
    (hp : lookup_assoc os.providers t.provider = some p)
    (hcb : lookup_assoc os.circuit_breakers t.provider = some cb)
    (hcc : circuit_call cb p { t with attempts := attempt + 1 } (oracle attempt)
        = (cb', p', .ok pt)) :
    (attempt_payment_go oracle (fuel + 1) attempt os t).2
      = { t with attempts := attempt + 1,
                 route_history := t.route_history ++
                   [{ provider := t.provider, attempt_number := attempt + 1,
                      status := "success", reason := none, processing_time := some pt }],
                 status := .SUCCESS } := by
  simp only [attempt_payment_go, hp, hcb, hcc]

theorem get_health_rate_of_healthy (p : Provider) (h : (p.get_health).is_healthy = true) :
    1/2 < (p.get_health).success_rate := by
  simp only [Provider.get_health] at h ⊢
  have := (Bool.and_eq_true _ _).mp h
  exact of_decide_eq_true this.1

theorem health_score_pos (p : Provider) (h : (p.get_health).is_healthy = true) :
    0 < (p.get_health).success_rate * (1000 / max (p.get_health).avg_latency 1) := by
  have hrate : (0 : ℚ) < (p.get_health).success_rate :=
    lt_trans (by norm_num) (get_health_rate_of_healthy p h)
  have hdiv : (0 : ℚ) < 1000 / max (p.get_health).avg_latency 1 :=
    div_pos (by norm_num) (lt_of_lt_of_le zero_lt_one (le_max_right _ 1))
  exact mul_pos hrate hdiv

theorem select_go_some_mem (bs : List (String × CircuitBreaker)) (t? : Option Transaction) :
    ∀ (l : List (String × Provider)) (b : String) (s : ℚ),
      select_healthiest_go bs t? l (some b) s ∈ b :: l.map Prod.fst := by
  intro l
  induction l with
  | nil =>
    intro b s
    simp [select_healthiest_go]
  | cons e rest ih =>
    intro b s
    simp only [select_healthiest_go]
    split
    · have h := ih b s
      simp only [List.map_cons, List.mem_cons] at h ⊢
      tauto
    · split
      · split
        · have h := ih e.1
            ((e.2.get_health).success_rate * (1000 / max (e.2.get_health).avg_latency 1))
          simp only [List.map_cons, List.mem_cons] at h ⊢
          tauto
        · have h := ih b s
          simp only [List.map_cons, List.mem_cons] at h ⊢
          tauto
      · have h := ih b s
        simp only [List.map_cons, List.mem_cons] at h ⊢
        tauto

theorem select_go_cases (bs : List (String × CircuitBreaker)) (t? : Option Transaction) :
    ∀ (l : List (String × Provider)) (best : Option String) (s : ℚ),
      select_healthiest_go bs t? l best s = best.getD ("stripe") ∨
      select_healthiest_go bs t? l best s ∈ l.map Prod.fst := by
  intro l
  induction l with
  | nil =>
    intro best s
    left
    simp [select_healthiest_go]
  | cons e rest ih =>
    intro best s
    simp only [select_healthiest_go]
    split
    · rcases ih best s with h | h
      · exact Or.inl h
      · right
        simp only [List.map_cons, List.mem_cons]
        exact Or.inr h
    · split
      · split
        · right
          have h := select_go_some_mem bs t? rest e.1
            ((e.2.get_health).success_rate * (1000 / max (e.2.get_health).avg_latency 1))
          simp only [List.map_cons, List.mem_cons] at h ⊢
          tauto
        · rcases ih best s with h | h
          · exact Or.inl h
          · right
            simp only [List.map_cons, List.mem_cons]
            exact Or.inr h
      · rcases ih best s with h | h
        · exact Or.inl h
        · right
          simp only [List.map_cons, List.mem_cons]
          exact Or.inr h

theorem select_go_mem_of_eligible (bs : List (String × CircuitBreaker))
    (t? : Option Transaction) :
    ∀ l : List (String × Provider), (∃ e ∈ l, eligible_entry bs t? e) →
      select_healthiest_go bs t? l none (-1) ∈ l.map Prod.fst := by
  intro l
  induction l with
  | nil =>
    intro h
    simp at h
  | cons e rest ih =>
    intro h
    rcases h with ⟨w, hw, helig⟩
    rcases List.mem_cons.mp hw with hw | hw
    · subst hw
      obtain ⟨hskip, hhealthy, hcb⟩ := helig
      simp only [select_healthiest_go, hskip]
      rw [if_neg (by simp)]
      rw [if_pos ⟨hhealthy, hcb⟩]
      rw [if_pos (lt_trans (by norm_num)
        (health_score_pos w.2 hhealthy))]
      have h := select_go_some_mem bs t? rest w.1
        ((w.2.get_health).success_rate * (1000 / max (w.2.get_health).avg_latency 1))
      simp only [List.map_cons, List.mem_cons] at h ⊢
      tauto
    · simp only [select_healthiest_go]
      split
      · have h := ih ⟨w, hw, helig⟩
        simp only [List.map_cons, List.mem_cons] at h ⊢
        tauto
      · split
        · split
          · have h := select_go_some_mem bs t? rest e.1
              ((e.2.get_health).success_rate * (1000 / max (e.2.get_health).avg_latency 1))
            simp only [List.map_cons, List.mem_cons] at h ⊢
            tauto
          · -- the running best changed score but not the membership argument:
            -- this branch keeps (none, -1) only when nothing was selected yet
            have h := ih ⟨w, hw, helig⟩
            simp only [List.map_cons, List.mem_cons] at h ⊢
            tauto
        · have h := ih ⟨w, hw, helig⟩
          simp only [List.map_cons, List.mem_cons] at h ⊢
          tauto

theorem select_go_all_ineligible (bs : List (String × CircuitBreaker))
    (t? : Option Transaction) :
    ∀ (l : List (String × Provider)) (best : Option String) (s : ℚ),
      (∀ e ∈ l, ¬ eligible_entry bs t? e) →
      select_healthiest_go bs t? l best s = best.getD ("stripe") := by
  intro l
  induction l with
  | nil =>
    intro best s _
    simp [select_healthiest_go]
  | cons e rest ih =>
    intro best s h
    have hhead := h e (by simp)
    have hrest : ∀ x ∈ rest, ¬ eligible_entry bs t? x := fun x hx => h x (by simp [hx])
    simp only [select_healthiest_go]
    split
    · exact ih best s hrest
    · rename_i hskip
      split
      · rename_i helig2
        exact absurd ⟨by simpa using hskip, helig2.1, helig2.2⟩ hhead
      · exact ih best s hrest

theorem lookup_map_update_ne {α : Type} (k k' : String) (v : α) (h : k' ≠ k) :
    ∀ l : List (String × α),
      lookup_assoc (l.map (fun e => if e.1 = k then (k, v) else e)) k' = lookup_assoc l k' := by
  intro l
  induction l with
  | nil => simp [lookup_assoc]
  | cons e rest ih =>
    by_cases he : e.1 = k
    · simp only [List.map_cons, if_pos he, lookup_assoc]
      rw [if_neg (fun habs => h habs.symm), if_neg (fun habs => h ((he.symm.trans habs).symm))]
      exact ih
    · simp only [List.map_cons, if_neg he, lookup_assoc]
      by_cases hk' : e.1 = k'
      · rw [if_pos hk', if_pos hk']
      · rw [if_neg hk', if_neg hk']
        exact ih

theorem lookup_append_single_ne {α : Type} (k k' : String) (v : α) (h : k' ≠ k) :
    ∀ l : List (String × α),
      lookup_assoc (l ++ [(k, v)]) k' = lookup_assoc l k' := by
  intro l
  induction l with
  | nil =>
    simp only [List.nil_append, lookup_assoc]
    exact if_neg (fun habs => h habs.symm)
  | cons e rest ih =>
    simp only [List.cons_append, lookup_assoc, List.append_eq, ih]

theorem lookup_update_assoc_ne {α : Type} (l : List (String × α)) (k k' : String) (v : α)
    (h : k' ≠ k) : lookup_assoc (update_assoc l k v) k' = lookup_assoc l k' := by
  unfold update_assoc
  split
  · exact lookup_map_update_ne k k' v h l
  · exact lookup_append_single_ne k k' v h l

theorem mem_update_assoc {α : Type} (l : List (String × α)) (k : String) (v : α) :
    ∀ e' ∈ update_assoc l k v, e'.1 = k ∨ e' ∈ l := by
  unfold update_assoc
  split
  · intro e' he'
    obtain ⟨e, he, heq⟩ := List.mem_map.mp he'
    by_cases h : e.1 = k
    · rw [if_pos h] at heq
      left
      rw [← heq]
    · rw [if_neg h] at heq
      right
      rw [← heq]
      exact he
  · intro e' he'
    rcases List.mem_append.mp he' with h | h
    · exact Or.inr h
    · left
      simp at h
      rw [h]

theorem attempt_payment_transaction (gw : PaymentGatewayState) (oracle : Nat → AttemptEnv)
    (t : Transaction) :
    (attempt_payment gw oracle t).1.transaction
      = some (attempt_payment_go oracle gw.retry_config.max_attempts 0
          { providers := gw.providers, circuit_breakers := gw.circuit_breakers,
            events := gw.events } t).2 := by
  simp only [attempt_payment]
  split <;> rfl

theorem attempt_payment_success_false (gw : PaymentGatewayState) (oracle : Nat → AttemptEnv)
    (t : Transaction)
    (h : (attempt_payment_go oracle gw.retry_config.max_attempts 0
        { providers := gw.providers, circuit_breakers := gw.circuit_breakers,
          events := gw.events } t).2.status = .FAILED) :
    (attempt_payment gw oracle t).1.success = false := by
  simp only [attempt_payment]
  rw [if_neg (by rw [h]; decide)]

theorem attempt_payment_state_transactions (gw : PaymentGatewayState)
    (oracle : Nat → AttemptEnv) (t : Transaction) :
    (attempt_payment gw oracle t).2.transactions
      = update_assoc gw.transactions
          (attempt_payment_go oracle gw.retry_config.max_attempts 0
            { providers := gw.providers, circuit_breakers := gw.circuit_breakers,
              events := gw.events } t).2.id
          (attempt_payment_go oracle gw.retry_config.max_attempts 0
            { providers := gw.providers, circuit_breakers := gw.circuit_breakers,
              events := gw.events } t).2 := by
  simp only [attempt_payment]
  split <;> rfl

theorem attempt_payment_state_retry_config (gw : PaymentGatewayState)
    (oracle : Nat → AttemptEnv) (t : Transaction) :
    (attempt_payment gw oracle t).2.retry_config = gw.retry_config := by
  simp only [attempt_payment]
  split <;> rfl

theorem others_open_of_update (os os' : OrchestratorState) (p' : Provider)
    (cb' : CircuitBreaker)
    (hps : os'.providers = update_assoc os.providers ("stripe") p')
    (hbs : os'.circuit_breakers = update_assoc os.circuit_breakers ("stripe") cb')
    (h : others_open os) : others_open os' := by
  intro e he hne
  rw [hps] at he
  rcases mem_update_assoc os.providers ("stripe") p' e he with hk | hmem
  · exact absurd hk hne
  · unfold breaker_state
    rw [hbs, lookup_update_assoc_ne os.circuit_breakers ("stripe") e.1 cb' hne]
    exact h e hmem hne

theorem switch_provider_stays_stripe (os' : OrchestratorState) (t2 : Transaction)
    (ht2 : t2.provider = "stripe") (hos' : others_open os') :
    (switch_provider os'.providers os'.circuit_breakers t2).provider = "stripe" := by
  simp only [switch_provider]
  split
  · exact ht2
  · have hall : ∀ e ∈ os'.providers.filter (fun e => e.1 ≠ t2.provider),
        ¬ eligible_entry os'.circuit_breakers (some (temp_transaction t2)) e := by
      intro e he
      have hmem := (List.mem_filter.mp he).1
      have hne : e.1 ≠ t2.provider := of_decide_eq_true (List.mem_filter.mp he).2
      rw [ht2] at hne
      have hopen := hos' e hmem hne
      rintro ⟨_, _, hcb⟩
      exact hcb hopen
    have := select_go_all_ineligible os'.circuit_breakers (some (temp_transaction t2))
      (os'.providers.filter (fun e => e.1 ≠ t2.provider)) none (-1) hall
    simpa [select_healthiest_provider] using this

theorem c3_go_stays_on_stripe (oracle : Nat → AttemptEnv) :
    ∀ (fuel attempt : Nat) (os : OrchestratorState) (t : Transaction),
      t.provider = "stripe" → others_open os →
      ∃ r : List Route,
        ((attempt_payment_go oracle fuel attempt os t).2.route_history
            = t.route_history ++ r) ∧
        (∀ route ∈ r, route.provider = "stripe") := by
  intro fuel
  induction fuel with
  | zero =>
    intro attempt os t _ _
    exact ⟨[], by simp [attempt_payment_go], by simp⟩
  | succ fuel ih =>
    intro attempt os t ht hos
    have hb : ∀ (os' : OrchestratorState) (route : Route),
        others_open os' → route.provider = "stripe" →
        ∃ r : List Route,
          ((if 0 < fuel then
              attempt_payment_go oracle fuel (attempt + 1) os'
                (switch_provider os'.providers os'.circuit_breakers
                  { t with attempts := attempt + 1,
                           route_history := t.route_history ++ [route] })
            else
              attempt_payment_go oracle fuel (attempt + 1) os'
                { t with attempts := attempt + 1,
                         route_history := t.route_history ++ [route] }).2.route_history
              = t.route_history ++ r) ∧
          (∀ rt ∈ r, rt.provider = "stripe") := by
      intro os' route hos' hroute
      by_cases hf : 0 < fuel
      · rw [if_pos hf]
        obtain ⟨pn, hpn⟩ := switch_provider_shape os'.providers os'.circuit_breakers
          { t with attempts := attempt + 1, route_history := t.route_history ++ [route] }
        have hXprov : (switch_provider os'.providers os'.circuit_breakers
            { t with attempts := attempt + 1,
                     route_history := t.route_history ++ [route] }).provider = "stripe" :=
          switch_provider_stays_stripe os' _ ht hos'
        rw [hpn] at hXprov ⊢
        obtain ⟨r', h1, h2⟩ := ih (attempt + 1) os'
          { ({ t with
                attempts := attempt + 1,
                route_history := t.route_history ++ [route] } : Transaction) with
            provider := pn } hXprov hos'
        refine ⟨route :: r', ?_, ?_⟩
        · rw [h1]
          simp
        · intro rt hrt
          rcases List.mem_cons.mp hrt with hrt | hrt
          · rw [hrt]
            exact hroute
          · exact h2 rt hrt
      · rw [if_neg hf]
        have hf0 : fuel = 0 := by omega
        subst hf0
        refine ⟨[route], by simp [attempt_payment_go], ?_⟩
        intro rt hrt
        rcases List.mem_cons.mp hrt with hrt | hrt
        · rw [hrt]
          exact hroute
        · simp at hrt
    rcases hp : lookup_assoc os.providers t.provider with _ | p
    · simp only [attempt_payment_go, hp]
      exact hb os _ hos ht
    · rcases hcb : lookup_assoc os.circuit_breakers t.provider with _ | cb
      · simp only [attempt_payment_go, hp, hcb]
        exact hb os _ hos ht
      · rcases hcc : circuit_call cb p { t with attempts := attempt + 1 } (oracle attempt)
          with ⟨cb', p', res⟩
        cases res with
        | ok pt =>
          simp only [attempt_payment_go, hp, hcb, hcc]
          refine ⟨[{ provider := t.provider, attempt_number := attempt + 1,
                     status := "success", reason := none, processing_time := some pt }],
            by simp, ?_⟩
          intro rt hrt
          rcases List.mem_cons.mp hrt with hrt | hrt
          · rw [hrt]
            exact ht
          · simp at hrt
        | error msg =>
          simp only [attempt_payment_go, hp, hcb, hcc]
          refine hb _ _ ?_ ht
          exact others_open_of_update os _ p' cb' (by rw [ht]) (by rw [ht]) hos

theorem closed_eq_open_false :
    (CircuitBreakerState.CLOSED = CircuitBreakerState.OPEN) = False := by
  simp

theorem closed_eq_half_open_false :
    (CircuitBreakerState.CLOSED = CircuitBreakerState.HALF_OPEN) = False := by
  simp

theorem stripe_first_call :
    circuit_call (CircuitBreaker.init CircuitBreakerConfig.default) StripeProvider
      { tx0 with attempts := 1 } env_insufficient
    = (cb_after_fail, stripe_after_fail,
       .error ("Provider stripe: Payment failed: INSUFFICIENT_FUNDS")) := by
  norm_num [circuit_call, CircuitBreaker.should_attempt_reset, CircuitBreaker.on_failure,
    CircuitBreaker.init, CircuitBreakerConfig.default, Provider.process_payment,
    Provider.is_rate_limited, Provider.can_process_transaction,
    Provider.get_adjusted_success_rate, StripeProvider, Provider.init,
    stripe_capabilities, stripe_network_preference_score, env_insufficient, tx0,
    cb_after_fail, stripe_after_fail, closed_eq_open_false, closed_eq_half_open_false]
  rfl

/-- C6: in the breaker's CLOSED state, every failure increments
`failure_count` and stamps `last_failure_time`; the breaker transitions to
OPEN exactly when the incremented count reaches `failure_threshold`
(staying one below the threshold keeps it CLOSED); and every success in
CLOSED keeps the state CLOSED and decrements `failure_count` by one with a
floor of zero (truncated subtraction), never resetting it. -/
theorem C6_closed_breaker_transitions (cb : CircuitBreaker) (now : Nat)
    (h : cb.state = .CLOSED) :
    ((cb.on_failure now).failure_count = cb.failure_count + 1) ∧
    ((cb.on_failure now).last_failure_time = some now) ∧
    ((cb.on_failure now).state = .OPEN ↔ cb.config.failure_threshold ≤ cb.failure_count + 1) ∧
    (cb.failure_count + 1 < cb.config.failure_threshold →
      (cb.on_failure now).state = .CLOSED) ∧
    (cb.on_success.state = .CLOSED) ∧
    (cb.on_success.failure_count = cb.failure_count - 1) := by
  have hfail : cb.on_failure now =
      (if cb.config.failure_threshold ≤ cb.failure_count + 1 then
        { cb with failure_count := cb.failure_count + 1, last_failure_time := some now,
                  state := .OPEN }
      else
        { cb with failure_count := cb.failure_count + 1, last_failure_time := some now,
                  state := .CLOSED }) := by
    simp only [CircuitBreaker.on_failure, h]
  have hsucc : cb.on_success =
      { cb with success_count := cb.success_count + 1,
                failure_count := cb.failure_count - 1 } := by
    simp only [CircuitBreaker.on_success, h]
  rw [hfail, hsucc]
  refine ⟨?_, ?_, ?_, ?_, ?_, ?_⟩
  · split_ifs <;> rfl
  · split_ifs <;> rfl
  · split_ifs with hthr
    · simpa using hthr
    · simpa using hthr
  · intro hlt
    split_ifs with hthr
    · exact absurd hthr (by omega)
    · rfl
  · exact h
  · rfl

/-- Witness for C6 at a fresh default breaker and clock second 5. -/
theorem C6_closed_breaker_transitions_witness :
    ((CircuitBreaker.init CircuitBreakerConfig.default).state = .CLOSED) ∧
    ((((CircuitBreaker.init CircuitBreakerConfig.default).on_failure 5).failure_count
        = (CircuitBreaker.init CircuitBreakerConfig.default).failure_count + 1) ∧
     (((CircuitBreaker.init CircuitBreakerConfig.default).on_failure 5).last_failure_time
        = some 5) ∧
     (((CircuitBreaker.init CircuitBreakerConfig.default).on_failure 5).state = .OPEN ↔
        (CircuitBreaker.init CircuitBreakerConfig.default).config.failure_threshold
          ≤ (CircuitBreaker.init CircuitBreakerConfig.default).failure_count + 1) ∧
     ((CircuitBreaker.init CircuitBreakerConfig.default).failure_count + 1
          < (CircuitBreaker.init CircuitBreakerConfig.default).config.failure_threshold →
        ((CircuitBreaker.init CircuitBreakerConfig.default).on_failure 5).state = .CLOSED) ∧
     ((CircuitBreaker.init CircuitBreakerConfig.default).on_success.state = .CLOSED) ∧
     ((CircuitBreaker.init CircuitBreakerConfig.default).on_success.failure_count
        = (CircuitBreaker.init CircuitBreakerConfig.default).failure_count - 1)) :=
  ⟨rfl, C6_closed_breaker_transitions (CircuitBreaker.init CircuitBreakerConfig.default) 5 rfl⟩

/-- C5 (amended): the success probability the source actually uses is
`base_success_rate × network_factor × amount_penalty × risk_penalty`
clamped above by 1, where the amount penalty is 0.95 for every amount
above 1000 — the source's `elif amount > 5000` branch carrying 0.90 is
dead code — and the risk penalty is applied only when `customer_info` is
present and `risk_score` is a truthy float. -/
theorem C5_adjusted_rate_formula (p : Provider) (t : Transaction) :
    p.get_adjusted_success_rate t
      = min (p.success_rate * network_factor p t * amount_penalty_effective t *
          risk_penalty_effective t) 1 := by
  unfold Provider.get_adjusted_success_rate network_factor amount_penalty_effective
    risk_penalty_effective
  rcases hpi : t.payment_instrument with _ | pi <;> try simp only [hpi]
  all_goals try (rcases hn : pi.network with _ | n <;> try simp only [hn])
  all_goals try (rcases hci : t.customer_info with _ | ci <;> try simp only [hci])
  all_goals try (rcases hrs : t.risk_score with _ | r <;> try simp only [hrs])
  all_goals split_ifs
  all_goals try (exfalso; linarith)
  all_goals first
    | (congr 1; ring)
    | rfl

/-- Counterexample to C5 as stated: for a transaction of amount 6000 with
risk score 0.9 and no customer info, the source computes 0.85 × 0.95
(the 0.95 bucket applies to every amount above 1000, and the risk penalty
is skipped because `customer_info` is absent), while the specified formula
gives 0.85 × 0.90 × 0.85. -/
theorem C5_counterexample :
    StripeProvider.get_adjusted_success_rate tx_c5 = 323/400 ∧
    adjusted_success_rate_spec StripeProvider tx_c5 = 2601/4000 ∧
    (323/400 : ℚ) ≠ 2601/4000 := by
  refine ⟨?_, ?_, by norm_num⟩ <;>
    norm_num [Provider.get_adjusted_success_rate, adjusted_success_rate_spec,
      StripeProvider, Provider.init, tx_c5, tx0]

/-- C8 (amended): no registered provider's network preference table ever
returns 0 — every provider assigns a positive score to every one of the
seven card networks, including the networks outside its declared
`supported_networks` (for Stripe: DINERS at 0.70 and UNIONPAY at 0.60). -/
theorem C8_unsupported_network_score_positive (e : String × Provider)
    (h : e ∈ init_gateway.providers) (n : CardNetwork) :
    0 < e.2.network_preference_score n := by
  simp only [init_gateway, List.mem_cons, List.not_mem_nil, or_false] at h
  rcases h with h | h | h | h <;> subst h <;> cases n <;>
    norm_num [StripeProvider, AdyenProvider, PayPalProvider, RazorpayProvider,
      Provider.init, stripe_network_preference_score, adyen_network_preference_score,
      paypal_network_preference_score, razorpay_network_preference_score]

/-- Witness for C8 (amended) at Stripe's registry entry and the DINERS
network, which Stripe does not support. -/
theorem C8_unsupported_network_score_positive_witness :
    (("stripe", StripeProvider) ∈ init_gateway.providers) ∧
    (CardNetwork.DINERS ∉ StripeProvider.capabilities.supported_networks) ∧
    0 < ("stripe", StripeProvider).2.network_preference_score CardNetwork.DINERS :=
  ⟨by simp [init_gateway], by decide,
   C8_unsupported_network_score_positive ("stripe", StripeProvider)
     (by simp [init_gateway]) CardNetwork.DINERS⟩

/-- Counterexample to C8 as stated: DINERS is not among Stripe's supported
networks, yet `get_network_preference_score` returns 0.70, not 0 (and
0.60 for UNIONPAY). -/
theorem C8_counterexample :
    (CardNetwork.DINERS ∉ stripe_capabilities.supported_networks) ∧
    stripe_network_preference_score .DINERS = 7/10 ∧
    (CardNetwork.UNIONPAY ∉ stripe_capabilities.supported_networks) ∧
    stripe_network_preference_score .UNIONPAY = 6/10 ∧
    (7/10 : ℚ) ≠ 0 := by
  refine ⟨by decide, ?_, by decide, ?_, by norm_num⟩ <;>
    norm_num [stripe_network_preference_score]

theorem failed_ne_success :
    (PaymentStatus.FAILED = PaymentStatus.SUCCESS) = False := by
  simp

theorem update_assoc_ne_nil {α : Type} (l : List (String × α)) (k : String) (v : α) :
    update_assoc l k v ≠ [] := by
  cases l with
  | nil => simp [update_assoc, lookup_assoc]
  | cons e es =>
    unfold update_assoc
    split
    · simp
    · simp

theorem gw_c3_others_open :
    others_open { providers := gw_c3.providers, circuit_breakers := gw_c3.circuit_breakers,
                  events := gw_c3.events } := by
  intro e he hne
  simp only [gw_c3, init_gateway, List.mem_cons, List.not_mem_nil, or_false] at he
  rcases he with h | h | h | h <;> subst h
  · exact absurd rfl hne
  all_goals rfl

theorem gw_all_open_ineligible (t? : Option Transaction) :
    ∀ e ∈ gw_all_open.providers, ¬ eligible_entry gw_all_open.circuit_breakers t? e := by
  intro e he helig
  obtain ⟨_, _, hcb⟩ := helig
  apply hcb
  simp only [gw_all_open, init_gateway, List.mem_cons, List.not_mem_nil, or_false] at he
  rcases he with h | h | h | h <;> subst h <;> rfl

/-- C4: `configure_provider` never succeeds — for a registered name the
source calls the non-existent `configure` method, raising `AttributeError`
instead of applying the options — and therefore
`simulate_scenario("reset_all")` reports failure and leaves the gateway
unchanged (neither success rates nor breakers are reset). -/
theorem C4_configure_provider_crashes (gw : PaymentGatewayState) (name : String)
    (opts : List ConfigOption) :
    (∀ g, configure_provider gw name opts ≠ .ok g) ∧
    configure_provider init_gateway ("stripe") reset_options
      = .error .attributeMissingConfigure ∧
    simulate_scenario init_gateway 0 ("reset_all") = (init_gateway, false) := by
  refine ⟨?_, rfl, rfl⟩
  intro g hg
  unfold configure_provider at hg
  split at hg <;> exact Except.noConfusion hg

/-- C7 (amended): when no registered provider is eligible
(capability-compatible, healthy, breaker not OPEN), the health-based
selector returns the literal string `"stripe"` — not the provider with the
lowest breaker failure count among capable ones, and no fallback flag is
recorded anywhere. -/
theorem C7_fallback_literal_stripe (providers : List (String × Provider))
    (bs : List (String × CircuitBreaker)) (t? : Option Transaction)
    (h : ∀ e ∈ providers, ¬ eligible_entry bs t? e) :
    select_healthiest_provider providers bs t? = "stripe" := by
  have hgo := select_go_all_ineligible bs t? providers none (-1) h
  simpa [select_healthiest_provider] using hgo

/-- Witness for C7 (amended): in `gw_all_open` every breaker is OPEN, so no
provider is eligible, and the selector falls back to `"stripe"`. -/
theorem C7_fallback_literal_stripe_witness :
    (∀ e ∈ gw_all_open.providers,
        ¬ eligible_entry gw_all_open.circuit_breakers (some tx_c7) e) ∧
    select_healthiest_provider gw_all_open.providers gw_all_open.circuit_breakers
      (some tx_c7) = "stripe" :=
  ⟨gw_all_open_ineligible (some tx_c7),
   C7_fallback_literal_stripe gw_all_open.providers gw_all_open.circuit_breakers
     (some tx_c7) (gw_all_open_ineligible (some tx_c7))⟩

/-- Counterexample to C7 as stated: with every breaker OPEN and a DINERS
card that only Adyen can process, the specified fallback (lowest breaker
failure count among capable providers) is `"adyen"`, but the source
returns the hardcoded `"stripe"` — a provider that cannot even process the
transaction. -/
theorem C7_counterexample :
    (∀ e ∈ gw_all_open.providers,
        ¬ eligible_entry gw_all_open.circuit_breakers (some tx_c7) e) ∧
    select_healthiest_provider gw_all_open.providers gw_all_open.circuit_breakers
      (some tx_c7) = "stripe" ∧
    router_fallback_spec gw_all_open.providers gw_all_open.circuit_breakers tx_c7
      = "adyen" ∧
    ("stripe" : String) ≠ "adyen" := by
  refine ⟨gw_all_open_ineligible (some tx_c7), ?_, ?_, by decide⟩
  · have hgo := select_go_all_ineligible gw_all_open.circuit_breakers (some tx_c7)
      gw_all_open.providers none (-1) (gw_all_open_ineligible (some tx_c7))
    simpa [select_healthiest_provider] using hgo
  · norm_num [router_fallback_spec, Provider.can_process_transaction, gw_all_open,
      init_gateway, StripeProvider, AdyenProvider, PayPalProvider, RazorpayProvider,
      Provider.init, stripe_capabilities, adyen_capabilities, paypal_capabilities,
      razorpay_capabilities, tx_c7, tx0, pi_diners, breaker_failure_count, lookup_assoc,
      List.filter]
    rfl

/-- C3 (amended): `_switch_provider` moves to a provider different from the
current one provided some alternative provider is registered and either
the current provider is not the hardcoded fallback `"stripe"` or some
alternative is eligible; when no alternative is eligible and the current
provider IS `"stripe"`, the selector's fallback returns `"stripe"` again
(see the counterexample). -/
theorem C3_switch_changes_provider (providers : List (String × Provider))
    (bs : List (String × CircuitBreaker)) (t : Transaction)
    (hne : (providers.filter (fun e => e.1 ≠ t.provider)).isEmpty = false)
    (h : t.provider ≠ "stripe" ∨
         ∃ e ∈ providers.filter (fun e => e.1 ≠ t.provider),
           eligible_entry bs (some (temp_transaction t)) e) :
    (switch_provider providers bs t).provider ≠ t.provider := by
  simp only [switch_provider]
  rw [if_neg (by rw [hne]; decide)]
  show select_healthiest_provider
      (providers.filter (fun e => e.1 ≠ t.provider)) bs (some (temp_transaction t))
    ≠ t.provider
  simp only [select_healthiest_provider]
  have hmem_ne : ∀ x ∈ (providers.filter (fun e => e.1 ≠ t.provider)).map Prod.fst,
      x ≠ t.provider := by
    intro x hx
    obtain ⟨e, he, hex⟩ := List.mem_map.mp hx
    have h2 := (List.mem_filter.mp he).2
    rw [← hex]
    exact of_decide_eq_true h2
  rcases h with hns | hel
  · rcases select_go_cases bs (some (temp_transaction t))
      (providers.filter (fun e => e.1 ≠ t.provider)) none (-1) with hc | hc
    · rw [hc]
      simpa using Ne.symm hns
    · exact hmem_ne _ hc
  · exact hmem_ne _ (select_go_mem_of_eligible bs (some (temp_transaction t))
      (providers.filter (fun e => e.1 ≠ t.provider)) hel)

/-- Witness for C3 (amended): switching away from Adyen on a fresh gateway
selects a provider other than Adyen. -/
theorem C3_switch_changes_provider_witness :
    ((init_gateway.providers.filter (fun e => e.1 ≠ tx_adyen.provider)).isEmpty = false) ∧
    (tx_adyen.provider ≠ "stripe") ∧
    (switch_provider init_gateway.providers init_gateway.circuit_breakers tx_adyen).provider
      ≠ tx_adyen.provider :=
  ⟨rfl, by decide,
   C3_switch_changes_provider init_gateway.providers init_gateway.circuit_breakers
     tx_adyen rfl (Or.inl (by decide))⟩

/-- Counterexample to C3 as stated: starting on Stripe with every other
breaker OPEN, all three attempts of the failing run are made on Stripe —
the same provider is used for consecutive attempts, because the selector's
fallback returns the literal `"stripe"` even when excluding Stripe. -/
theorem C3_counterexample :
    ∃ t, run_c3.1.transaction = some t ∧
      t.route_history.length = 3 ∧
      (∀ r ∈ t.route_history, r.provider = "stripe") := by
  refine ⟨_, attempt_payment_transaction gw_c3 oracle_insufficient tx0, ?_, ?_⟩
  · exact ((attempt_payment_go_all_fail oracle_insufficient (fun _ => le_refl 1)
      gw_c3.retry_config.max_attempts 0
      { providers := gw_c3.providers, circuit_breakers := gw_c3.circuit_breakers,
        events := gw_c3.events } tx0).2.2).trans rfl
  · obtain ⟨r, hr1, hr2⟩ := c3_go_stays_on_stripe oracle_insufficient
      gw_c3.retry_config.max_attempts 0
      { providers := gw_c3.providers, circuit_breakers := gw_c3.circuit_breakers,
        events := gw_c3.events } tx0 rfl gw_c3_others_open
    intro route hroute
    rw [hr1] at hroute
    rcases List.mem_append.mp hroute with h | h
    · exact absurd h (by simp [tx0])
    · exact hr2 route h

/-- C1: the orchestrator never consults `retry_on_errors` and does not
short-circuit on terminal errors.  In `run_fail` the first attempt fails
with the terminal error INSUFFICIENT_FUNDS, yet the loop runs all three
attempts (with provider switching) before giving up; and the loop's result
is identical for every value of the `retry_on_errors` allowlist. -/
theorem C1_terminal_error_not_short_circuited :
    ∃ t, run_fail.1.transaction = some t ∧
      t.status = .FAILED ∧
      t.attempts = 3 ∧
      t.route_history.length = 3 ∧
      (∃ rest, t.route_history
          = ({ provider := ("stripe"), attempt_number := 1, status := ("failed"),
               reason := some ("Provider stripe: Payment failed: INSUFFICIENT_FUNDS"),
               processing_time := none } : Route) :: rest) ∧
      (∀ ros : List String,
        (attempt_payment (gw_with_retry_on ros) oracle_insufficient tx0).1.transaction
          = run_fail.1.transaction) := by
  obtain ⟨hst, hat, hlen⟩ := attempt_payment_go_all_fail oracle_insufficient
    (fun _ => le_refl 1) init_gateway.retry_config.max_attempts 0
    { providers := init_gateway.providers, circuit_breakers := init_gateway.circuit_breakers,
      events := init_gateway.events } tx0
  refine ⟨_, attempt_payment_transaction init_gateway oracle_insufficient tx0,
    hst, hat.trans rfl, hlen.trans rfl, ?_, ?_⟩
  · obtain ⟨rest, hre⟩ := attempt_payment_go_head_error oracle_insufficient 2 0
      { providers := init_gateway.providers,
        circuit_breakers := init_gateway.circuit_breakers,
        events := init_gateway.events } tx0 StripeProvider
      (CircuitBreaker.init CircuitBreakerConfig.default) cb_after_fail stripe_after_fail
      ("Provider stripe: Payment failed: INSUFFICIENT_FUNDS") rfl rfl stripe_first_call
    exact ⟨rest, hre.trans rfl⟩
  · intro ros
    rw [attempt_payment_transaction]
    exact (attempt_payment_transaction init_gateway oracle_insufficient tx0).symm

/-- C2 (amended): the bookkeeping invariant holds per orchestrator run: a
transaction entering the loop with a zero attempt counter and an empty
route history leaves it with `attempts = route_history.length` and the
`i`-th route numbered `i + 1`.  (It fails across `retry_payment`
re-entries, which keep old routes but restart the counter — see the
counterexample.) -/
theorem C2_per_run_bookkeeping (gw : PaymentGatewayState) (oracle : Nat → AttemptEnv)
    (t : Transaction) (h0 : t.attempts = 0) (hh : t.route_history = []) :
    ∃ tr, (attempt_payment gw oracle t).1.transaction = some tr ∧
      tr.attempts = tr.route_history.length ∧
      (∀ i (hi : i < tr.route_history.length),
        (tr.route_history.get ⟨i, hi⟩).attempt_number = i + 1) := by
  obtain ⟨r, h1, h2, h3, h4, h5, h6, h7⟩ := attempt_payment_go_spec oracle
    gw.retry_config.max_attempts 0
    { providers := gw.providers, circuit_breakers := gw.circuit_breakers,
      events := gw.events } t
  have hrh : (attempt_payment_go oracle gw.retry_config.max_attempts 0
      { providers := gw.providers, circuit_breakers := gw.circuit_breakers,
        events := gw.events } t).2.route_history = r := by
    rw [h1, hh]
    simp
  refine ⟨_, attempt_payment_transaction gw oracle t, ?_, ?_⟩
  · rw [h2, hrh]
    by_cases hf : gw.retry_config.max_attempts = 0
    · rw [if_pos hf, h0, h3 hf]
      simp
    · rw [if_neg hf]
      simp
  · intro i hi
    have hi' : i < r.length := by
      rw [hrh] at hi
      exact hi
    have hget : (attempt_payment_go oracle gw.retry_config.max_attempts 0
        { providers := gw.providers, circuit_breakers := gw.circuit_breakers,
          events := gw.events } t).2.route_history.get ⟨i, hi⟩ = r.get ⟨i, hi'⟩ := by
      rw [List.get_of_eq hrh]
    rw [hget]
    exact (h5 i hi').trans (by simp)

/-- Witness for C2 (amended) at a fresh gateway and the all-fail oracle. -/
theorem C2_per_run_bookkeeping_witness :
    tx0.attempts = 0 ∧ tx0.route_history = [] ∧
    ∃ tr, (attempt_payment init_gateway oracle_insufficient tx0).1.transaction = some tr ∧
      tr.attempts = tr.route_history.length ∧
      (∀ i (hi : i < tr.route_history.length),
        (tr.route_history.get ⟨i, hi⟩).attempt_number = i + 1) :=
  ⟨rfl, rfl, C2_per_run_bookkeeping init_gateway oracle_insufficient tx0 rfl rfl⟩

/-- Counterexample to C2 as stated: re-entering the loop through
`retry_payment` on the thrice-failed transaction keeps the three old
routes but restarts the attempt counter, so afterwards
`attempts + 3 = route_history.length` (in particular they differ), and the
fourth route entry carries `attempt_number = 1`, not 4. -/
theorem C2_counterexample :
    ∃ (t : Transaction) (pre post : List Route) (route : Route),
      result_transaction run_retry = some t ∧
      t.attempts + 3 = t.route_history.length ∧
      t.attempts ≠ t.route_history.length ∧
      t.route_history = pre ++ route :: post ∧
      pre.length = 3 ∧
      route.attempt_number = 1 := by
  obtain ⟨hstF, hatF, hlenF⟩ := attempt_payment_go_all_fail oracle_insufficient
    (fun _ => le_refl 1) init_gateway.retry_config.max_attempts 0
    { providers := init_gateway.providers, circuit_breakers := init_gateway.circuit_breakers,
      events := init_gateway.events } tx0
  have ht_fail_status : t_fail.status = .FAILED := hstF
  have ht_fail_len : t_fail.route_history.length = 3 := hlenF.trans rfl
  have hid : (attempt_payment_go oracle_insufficient init_gateway.retry_config.max_attempts 0
      { providers := init_gateway.providers, circuit_breakers := init_gateway.circuit_breakers,
        events := init_gateway.events } tx0).2.id = "tx-1" := by
    obtain ⟨r, _, _, _, _, _, h6, _⟩ := attempt_payment_go_spec oracle_insufficient
      init_gateway.retry_config.max_attempts 0
      { providers := init_gateway.providers, circuit_breakers := init_gateway.circuit_breakers,
        events := init_gateway.events } tx0
    exact h6
  have htr : run_fail.2.transactions = [("tx-1", t_fail)] := by
    refine (attempt_payment_state_transactions init_gateway oracle_insufficient tx0).trans ?_
    rw [hid]
    rfl
  have hrt : run_retry
      = (.ok (attempt_payment run_fail.2 oracle_ok t_retry_entry).1,
         (attempt_payment run_fail.2 oracle_ok t_retry_entry).2) := by
    show retry_payment run_fail.2 oracle_ok ("tx-1") = _
    simp only [retry_payment, htr, lookup_assoc, if_true, ht_fail_status,
      failed_ne_success, if_false]
    rfl
  have hrc : run_fail.2.retry_config.max_attempts = 3 :=
    (congrArg RetryConfig.max_attempts
      (attempt_payment_state_retry_config init_gateway oracle_insufficient tx0)).trans rfl
  obtain ⟨r, hh1, hh2, hh3, hh4, hh5, hh6, hh7⟩ := attempt_payment_go_spec oracle_ok
    run_fail.2.retry_config.max_attempts 0
    { providers := run_fail.2.providers, circuit_breakers := run_fail.2.circuit_breakers,
      events := run_fail.2.events } t_retry_entry
  have htx : result_transaction run_retry
      = some (attempt_payment_go oracle_ok run_fail.2.retry_config.max_attempts 0
          { providers := run_fail.2.providers,
            circuit_breakers := run_fail.2.circuit_breakers,
            events := run_fail.2.events } t_retry_entry).2 := by
    rw [hrt]
    exact attempt_payment_transaction run_fail.2 oracle_ok t_retry_entry
  have hrpos : 0 < r.length := hh4 (by rw [hrc]; norm_num)
  obtain ⟨route, rest, hr⟩ : ∃ route rest, r = route :: rest := by
    cases r with
    | nil => simp at hrpos
    | cons a l => exact ⟨a, l, rfl⟩
  subst hr
  have hpre_len : t_retry_entry.route_history.length = 3 := ht_fail_len
  refine ⟨_, t_retry_entry.route_history, rest, route, htx, ?_, ?_, ?_, hpre_len, ?_⟩
  · rw [hh2, hh1, hrc, if_neg (show ¬(3 : Nat) = 0 by decide)]
    simp only [List.length_append, hpre_len]
    omega
  · rw [hh2, hh1, hrc, if_neg (show ¬(3 : Nat) = 0 by decide)]
    simp only [List.length_append, hpre_len]
    omega
  · exact hh1
  · have h0 := hh5 0 (by simp)
    simpa using h0

theorem process_payment_none_preferred_shape (gw : PaymentGatewayState)
    (oracle : Nat → AttemptEnv) (txid : String) (amount : ℚ) (currency : String)
    (cid : Option String) (pin : Option PaymentInstrument) (cinfo : Option CustomerInfo)
    (ttype : Option TransactionType) (mid oid : Option String) :
    ∃ (t : Transaction) (gw1 : PaymentGatewayState),
      process_payment gw oracle txid amount currency none cid pin cinfo ttype mid oid
        = (.ok (attempt_payment gw1 oracle t).1, (attempt_payment gw1 oracle t).2) ∧
      t.currency = parse_currency currency ∧
      t.id = txid := by
  simp only [process_payment]
  refine ⟨_, _, rfl, ?_, ?_⟩ <;>
    repeat first | rfl | split

theorem process_payment_empty_preferred_shape (gw : PaymentGatewayState)
    (oracle : Nat → AttemptEnv) (txid : String) (amount : ℚ) (currency : String)
    (cid : Option String) (pin : Option PaymentInstrument) (cinfo : Option CustomerInfo)
    (ttype : Option TransactionType) (mid oid : Option String) :
    ∃ (t : Transaction) (gw1 : PaymentGatewayState),
      process_payment gw oracle txid amount currency (some "") cid pin cinfo ttype mid oid
        = (.ok (attempt_payment gw1 oracle t).1, (attempt_payment gw1 oracle t).2) ∧
      gw1.transactions = update_assoc gw.transactions txid t ∧
      t.id = txid := by
  simp only [process_payment]
  refine ⟨_, _, rfl, rfl, ?_⟩
  repeat first | rfl | split

/-- C9 (amended): a currency string whose ASCII-uppercased form is not one
of the nine enum codes is silently replaced by USD: the call does not
fail, the transaction is created with currency USD, and processing
proceeds as if USD had been requested.  (Lowercase spellings of valid
codes are uppercased first and do NOT fall back to USD — see the
counterexample.) -/
theorem C9_unknown_currency_usd (s : String)
    (h : currency_from_str (str_upper s) = none) :
    parse_currency s = .USD ∧
    ∀ (gw : PaymentGatewayState) (oracle : Nat → AttemptEnv) (txid : String) (amount : ℚ),
      ∃ t, result_transaction
          (process_payment gw oracle txid amount s none none none none none none none)
        = some t ∧ t.currency = .USD := by
  have hparse : parse_currency s = .USD := by
    unfold parse_currency
    rw [h]
  refine ⟨hparse, ?_⟩
  intro gw oracle txid amount
  obtain ⟨t1, gw1, hshape, hcur, _⟩ :=
    process_payment_none_preferred_shape gw oracle txid amount s none none none none none none
  refine ⟨(attempt_payment_go oracle gw1.retry_config.max_attempts 0
      { providers := gw1.providers, circuit_breakers := gw1.circuit_breakers,
        events := gw1.events } t1).2, ?_, ?_⟩
  · rw [hshape]
    exact attempt_payment_transaction gw1 oracle t1
  · obtain ⟨r, _, _, _, _, _, _, h7⟩ := attempt_payment_go_spec oracle
      gw1.retry_config.max_attempts 0
      { providers := gw1.providers, circuit_breakers := gw1.circuit_breakers,
        events := gw1.events } t1
    exact h7.trans (hcur.trans hparse)

/-- Witness for C9 (amended) at the unknown currency string "BTC". -/
theorem C9_unknown_currency_usd_witness :
    currency_from_str (str_upper ("BTC")) = none ∧
    (parse_currency ("BTC") = .USD ∧
     ∀ (gw : PaymentGatewayState) (oracle : Nat → AttemptEnv) (txid : String) (amount : ℚ),
       ∃ t, result_transaction
           (process_payment gw oracle txid amount ("BTC") none none none none none none none)
         = some t ∧ t.currency = .USD) :=
  ⟨rfl, C9_unknown_currency_usd ("BTC") rfl⟩

/-- Counterexample to C9 as stated: "eur" is not one of the nine enum
codes, yet the transaction is created with currency EUR (the source
uppercases before the enum lookup), not USD. -/
theorem C9_counterexample :
    ("eur" ∉ currency_codes) ∧
    parse_currency ("eur") = .EUR ∧
    (∃ t, result_transaction run_eur = some t ∧ t.currency = .EUR) ∧
    Currency.EUR ≠ Currency.USD := by
  refine ⟨by decide, rfl, ?_, by decide⟩
  obtain ⟨t1, gw1, hshape, hcur, _⟩ :=
    process_payment_none_preferred_shape init_gateway oracle_ok ("tx-9") 100 ("eur")
      none none none none none none
  refine ⟨(attempt_payment_go oracle_ok gw1.retry_config.max_attempts 0
      { providers := gw1.providers, circuit_breakers := gw1.circuit_breakers,
        events := gw1.events } t1).2, ?_, ?_⟩
  · show result_transaction
        (process_payment init_gateway oracle_ok ("tx-9") 100 ("eur")
          none none none none none none none) = _
    rw [hshape]
    exact attempt_payment_transaction gw1 oracle_ok t1
  · obtain ⟨r, _, _, _, _, _, _, h7⟩ := attempt_payment_go_spec oracle_ok
      gw1.retry_config.max_attempts 0
      { providers := gw1.providers, circuit_breakers := gw1.circuit_breakers,
        events := gw1.events } t1
    exact h7.trans (hcur.trans rfl)

/-- C10 (amended): a preferred provider that is a non-empty string not
registered in the gateway is rejected with `InvalidProvider` before any
observable state change — the returned state is the input state, so no
transaction is stored, no event is emitted and no provider or breaker is
touched.  (The empty string, also unregistered, is treated as falsy and
slips through to optimal selection — see the counterexample.) -/
theorem C10_invalid_preferred_rejected (gw : PaymentGatewayState)
    (oracle : Nat → AttemptEnv) (txid : String) (amount : ℚ) (currency : String)
    (pp : String) (cid : Option String) (pin : Option PaymentInstrument)
    (cinfo : Option CustomerInfo) (ttype : Option TransactionType) (mid oid : Option String)
    (hpp : pp ≠ "") (hlk : lookup_assoc gw.providers pp = none) :
    process_payment gw oracle txid amount currency (some pp) cid pin cinfo ttype mid oid
      = (.error (.invalidProvider pp), gw) := by
  simp only [process_payment]
  rw [if_neg hpp, if_pos (show (lookup_assoc gw.providers pp).isNone = true by rw [hlk]; rfl)]

/-- Witness for C10 (amended): the unregistered name "bogus" is rejected
with the gateway state untouched. -/
theorem C10_invalid_preferred_rejected_witness :
    ("bogus" : String) ≠ "" ∧
    lookup_assoc init_gateway.providers ("bogus") = none ∧
    process_payment init_gateway oracle_ok ("tx-10") 100 ("USD") (some ("bogus"))
      none none none none none none
      = (.error (.invalidProvider ("bogus")), init_gateway) :=
  ⟨by decide, rfl,
   C10_invalid_preferred_rejected init_gateway oracle_ok ("tx-10") 100 ("USD") ("bogus")
     none none none none none none (by decide) rfl⟩

/-- Counterexample to C10 as stated: the empty string is not a registered
provider name, yet the call does not raise — Python's truthiness test
skips the validation — and the transactions map does gain an entry. -/
theorem C10_counterexample :
    lookup_assoc init_gateway.providers ("") = none ∧
    (∃ pr, run_empty_preferred.1 = .ok pr) ∧
    run_empty_preferred.2.transactions ≠ [] ∧
    init_gateway.transactions = [] := by
  obtain ⟨t1, gw1, hshape, htrans, _⟩ :=
    process_payment_empty_preferred_shape init_gateway oracle_ok ("tx-10") 100 ("USD")
      none none none none none none
  refine ⟨rfl, ?_, ?_, rfl⟩
  · refine ⟨(attempt_payment gw1 oracle_ok t1).1, ?_⟩
    show (process_payment init_gateway oracle_ok ("tx-10") 100 ("USD") (some "")
        none none none none none none).1 = _
    rw [hshape]
  · show (process_payment init_gateway oracle_ok ("tx-10") 100 ("USD") (some "")
        none none none none none none).2.transactions ≠ []
    rw [hshape]
    rw [attempt_payment_state_transactions]
    exact update_assoc_ne_nil _ _ _

end PaymentGateway
